import Mathlib

/-!
Verification development for the redis-ai-trading-bot signal-detection and
backtest-simulation core.

The JavaScript source is embedded shallowly: prices, balances and indicator
values are rationals (`ℚ`), JS arrays are `List`s, nullable values are
`Option`s, and a function that can throw-and-be-caught-to-null returns an
`Option`.  Rational division is total with `x / 0 = 0`; the one place where
the JS float semantics of `0/0 = NaN` is observable (the unguarded first
Wilder RSI value in the backtesting engine) is additionally modelled with an
explicit JS-number type `JSNum` carrying NaN and the infinities.
-/

namespace TradingBot

/-- Direction tag of a candidate or combined trading signal. -/
inductive SignalType where
  | bullish
  | bearish
  | neutral
deriving DecidableEq

/-- Common duck-typed signal shape `{type, strength, confidence, source}` shared by all
detectors; `confirmations` exists only on combined signals (hence an `Option`).
Detector-specific extra fields (`pattern`, `rsi`, `volumeRatio`) are never read by any
downstream code and are omitted. -/
structure Signal where
  type : SignalType
  strength : ℚ
  confidence : ℚ
  source : String
  confirmations : Option ℕ := none
deriving DecidableEq

/-- One OHLCV candle.  The `open` price field is named `opn` because `open` is a Lean
keyword. -/
structure Candle where
  timestamp : ℤ
  opn : ℚ
  high : ℚ
  low : ℚ
  close : ℚ
  volume : ℚ
deriving DecidableEq

/-- One point of the equity curve. -/
structure EquityPoint where
  timestamp : ℤ
  value : ℚ
deriving DecidableEq

/-- JS `x || default` on an optionally-present numeric field: an absent field and the
falsy value `0` both select the default. -/
def jsOr (x : Option ℚ) (d : ℚ) : ℚ :=
  match x with
  | none => d
  | some v => if v = 0 then d else v

/-- JS `x || default` for integer-valued parameters. -/
def jsOrNat (x : Option ℕ) (d : ℕ) : ℕ :=
  match x with
  | none => d
  | some v => if v = 0 then d else v

/-- Left-fold sum of a rational list (mirrors `reduce((a,b)=>a+b, 0)`). -/
def sumQ (l : List ℚ) : ℚ := l.foldl (fun a b => a + b) 0

/-- JS `Array.prototype.slice(s, e)` (for `0 ≤ s ≤ e`): elements of index `s ≤ i < e`. -/
def jsSlice {α : Type} (l : List α) (s e : ℕ) : List α := (l.drop s).take (e - s)

/-- JS `slice(-2)`: the last two elements (the whole list when shorter). -/
def last2 {α : Type} (l : List α) : List α := l.drop (l.length - 2)

namespace BacktestingEngine

/-- `calculateRSI` of backtesting-engine.js: Wilder RSI over close prices.  When fewer
than `period+1` prices are supplied it returns an array of the input length filled with
the neutral value `50`; otherwise the output has the input length, starting with
`period` copies of `50`, then the first smoothed value, then the Wilder recursion.
Rational division is total with `x / 0 = 0`; the JS float behaviour of the unguarded
first value when `avgL = 0` (source line 456) is modelled exactly by `calculateRSIjs`
below. -/
def calculateRSI (prices : List ℚ) (period : ℕ) : List ℚ :=
  if prices.length < period + 1 then List.replicate prices.length 50 else
  let diffs := ((prices.drop 1).zip prices).map (fun pq => pq.1 - pq.2)
  let gains := diffs.map (fun d => max d 0)
  let losses := diffs.map (fun d => max (-d) 0)
  let avgG0 := sumQ (gains.take period) / (period : ℚ)
  let avgL0 := sumQ (losses.take period) / (period : ℚ)
  let first := 100 - 100 / (1 + avgG0 / avgL0)
  let rest := (gains.drop period).zip (losses.drop period)
  let step := fun (acc : List ℚ × ℚ × ℚ) (gl : ℚ × ℚ) =>
    let avgG := (acc.2.1 * ((period : ℚ) - 1) + gl.1) / (period : ℚ)
    let avgL := (acc.2.2 * ((period : ℚ) - 1) + gl.2) / (period : ℚ)
    let v := if avgL = 0 then (100 : ℚ) else 100 - 100 / (1 + avgG / avgL)
    (acc.1 ++ [v], avgG, avgL)
  List.replicate period 50 ++ [first] ++ (rest.foldl step ([], avgG0, avgL0)).1

/-- Kind selector of `findLocalExtrema` (the source passes the strings `'minima'` /
`'maxima'`). -/
inductive ExtremaKind where
  | minima
  | maxima
deriving DecidableEq

/-- Inner test of `findLocalExtrema`: index `i` is a strict local extremum against all
neighbours at distance `1..order`. -/
def isLocalExtremum (arr : List ℚ) (kind : ExtremaKind) (order i : ℕ) : Bool :=
  (List.range' 1 order).all (fun j =>
    match arr.get? i, arr.get? (i - j), arr.get? (i + j) with
    | some a, some b, some c =>
        match kind with
        | ExtremaKind.minima => decide (a < b) && decide (a < c)
        | ExtremaKind.maxima => decide (b < a) && decide (c < a)
    | _, _, _ => false)

/-- `findLocalExtrema` of backtesting-engine.js: indices `order ≤ i < len - order` that
are strict local minima/maxima within a symmetric window of `order` neighbours. -/
def findLocalExtrema (arr : List ℚ) (kind : ExtremaKind) (order : ℕ) : List ℕ :=
  (List.range' order (arr.length - 2 * order)).filter (isLocalExtremum arr kind order)

/-- `detectWMPatterns` of backtesting-engine.js.  Only the RSI series is inspected (the
price argument is accepted but unused, as in the source).  A recent RSI local minimum
below `low + tol` yields a bullish `W` signal; failing that, a recent local maximum above
`high - tol` yields a bearish `M` signal. -/
def detectWMPatterns (_prices : List Candle) (rsi : List ℚ) (tol low high : ℚ) :
    Option Signal :=
  if rsi.length < 5 then none else
  let order := 2
  let minima := findLocalExtrema rsi ExtremaKind.minima order
  let maxima := findLocalExtrema rsi ExtremaKind.maxima order
  let i := rsi.length - 1
  let wRes : Option Signal :=
    if minima.contains (i - 1) || minima.contains (i - 2) then
      let idx := if minima.contains (i - 1) then i - 1 else i - 2
      match rsi.get? idx with
      | some v =>
          if v < low + tol then
            some { type := SignalType.bullish, strength := min 1 ((low + tol - v) / 20),
                   confidence := 8/10, source := "W" }
          else none
      | none => none
    else none
  match wRes with
  | some s => some s
  | none =>
    if maxima.contains (i - 1) || maxima.contains (i - 2) then
      let idx := if maxima.contains (i - 1) then i - 1 else i - 2
      match rsi.get? idx with
      | some v =>
          if high - tol < v then
            some { type := SignalType.bearish, strength := min 1 ((v - (high - tol)) / 20),
                   confidence := 8/10, source := "M" }
          else none
      | none => none
    else none

/-- `analyzeVolumePattern` of backtesting-engine.js: elevated volume relative to the
trailing 4-candle average, combined with candle body direction and a bounded recent
momentum, yields a volume signal. -/
def analyzeVolumePattern (data : List Candle) (idx : ℕ) : Option Signal :=
  if data.length < 5 ∨ idx < 4 then none else
  match data.get? idx, data.get? (idx - 2) with
  | some curr, some back2 =>
    let prev := jsSlice data (idx - 4) idx
    let avg := (prev.foldl (fun s c => s + c.volume) 0) / 4
    let volRat := curr.volume / avg
    let change := (curr.close - curr.opn) / curr.opn
    let recentMomentum := (curr.close - back2.close) / back2.close
    if (13 : ℚ)/10 < volRat then
      if 5/1000 < change ∧ recentMomentum < 3/100 then
        some { type := SignalType.bullish, strength := min (volRat / (25/10)) (8/10),
               confidence := 7/10, source := "vol+" }
      else if change < -(5/1000) ∧ -(3/100) < recentMomentum then
        some { type := SignalType.bearish, strength := min (volRat / (25/10)) (8/10),
               confidence := 7/10, source := "vol-" }
      else none
    else none
  | _, _ => none

/-- `analyzeCandlestickPatterns` of backtesting-engine.js: doji / hammer / shooting-star
/ engulfing geometric body-vs-wick rules on the current and previous candle. -/
def analyzeCandlestickPatterns (data : List Candle) (idx : ℕ) : Option Signal :=
  if data.length < 3 ∨ idx < 2 then none else
  match data.get? idx, data.get? (idx - 1) with
  | some c, some p =>
    let body := |c.close - c.opn|
    let total := c.high - c.low
    let up := c.high - max c.close c.opn
    let down := min c.close c.opn - c.low
    if body < total * (1/10) ∧ body * 2 < up ∧ body * 2 < down then
      some { type := SignalType.neutral, strength := 3/10, confidence := 6/10,
             source := "doji" }
    else if body * 2 < down ∧ up < body * (1/2) then
      some { type := SignalType.bullish, strength := 6/10, confidence := 7/10,
             source := "hammer" }
    else if body * 2 < up ∧ down < body * (1/2) then
      some { type := SignalType.bearish, strength := 6/10, confidence := 7/10,
             source := "shooting_star" }
    else
      let prevBody := |p.close - p.opn|
      if p.close < p.opn ∧ c.opn < c.close ∧ prevBody * (12/10) < body ∧
          p.opn < c.close ∧ c.opn < p.close then
        some { type := SignalType.bullish, strength := 8/10, confidence := 8/10,
               source := "bullish_engulfing" }
      else if p.opn < p.close ∧ c.close < c.opn ∧ prevBody * (12/10) < body ∧
          c.close < p.opn ∧ p.close < c.opn then
        some { type := SignalType.bearish, strength := 8/10, confidence := 8/10,
               source := "bearish_engulfing" }
      else none
  | _, _ => none

/-- `detectTrendSignal` of backtesting-engine.js: short/long SMA relation combined with
an extreme RSI and weakening opposite momentum.  The third source parameter `idx` is
accepted but unused, as in the source. -/
def detectTrendSignal (data : List Candle) (currentRsi : ℚ) (_idx : ℕ) : Option Signal :=
  if data.length < 10 then none else
  let prices := data.map (fun c => c.close)
  let sma5 := sumQ (prices.drop (prices.length - 5)) / 5
  let sma10 := sumQ ((prices.drop (prices.length - 10)).take 5) / 5
  let price := prices.getLast?.getD 0
  let str := |(sma5 - sma10) / sma10|
  let recentMomentum :=
    if 4 ≤ data.length then
      match data.get? (data.length - 4) with
      | some c => (price - c.close) / c.close
      | none => 0
    else 0
  if sma10 < sma5 ∧ sma5 < price ∧ currentRsi < 30 ∧ -(3/100) < recentMomentum then
    some { type := SignalType.bullish, strength := min (str * 5) (8/10),
           confidence := 75/100, source := "trend" }
  else if sma5 < sma10 ∧ price < sma5 ∧ 70 < currentRsi ∧ recentMomentum < 3/100 then
    some { type := SignalType.bearish, strength := min (str * 5) (8/10),
           confidence := 75/100, source := "trend" }
  else none

/-- Mean strength of a signal list (`reduce((a,b)=>a+b.strength,0)/length`). -/
def avgStrength (l : List Signal) : ℚ := (l.foldl (fun a b => a + b.strength) 0) / l.length

/-- Mean confidence of a signal list. -/
def avgConfidence (l : List Signal) : ℚ :=
  (l.foldl (fun a b => a + b.confidence) 0) / l.length

/-- `combineSignalsSimplified` of backtesting-engine.js.  Null candidates are dropped;
candidates are partitioned by direction; the bullish side is checked first, and a side
wins with one candidate of strength above `0.4` or with at least two candidates; the
winner's strength/confidence are the contributing means, `confirmations` their count,
`source` `"combined"`.  When the bullish side does not qualify, control falls through to
the bearish check; otherwise `null`. -/
def combineSignalsSimplified (signals : List (Option Signal)) : Option Signal :=
  let s := signals.filterMap id
  if s.length = 0 then none else
  let bulls := s.filter (fun x => x.type == SignalType.bullish)
  let bears := s.filter (fun x => x.type == SignalType.bearish)
  let bearBranch : Option Signal :=
    if 1 ≤ bears.length then
      if (bears.find? (fun x => decide ((4 : ℚ)/10 < x.strength))).isSome ∨ 2 ≤ bears.length then
        some { type := SignalType.bearish, strength := avgStrength bears,
               confidence := avgConfidence bears, source := "combined",
               confirmations := some bears.length }
      else none
    else none
  if 1 ≤ bulls.length then
    if (bulls.find? (fun x => decide ((4 : ℚ)/10 < x.strength))).isSome ∨ 2 ≤ bulls.length then
      some { type := SignalType.bullish, strength := avgStrength bulls,
             confidence := avgConfidence bulls, source := "combined",
             confirmations := some bulls.length }
    else bearBranch
  else bearBranch

/-- Step 5.5 of `runBacktest`: a trend-follow signal of strength above `0.3` wins
outright; otherwise the five other candidates are combined. -/
def selectFinalSignal (trendSignal : Option Signal) (candidates : List (Option Signal)) :
    Option Signal :=
  match trendSignal with
  | some t => if (3 : ℚ)/10 < t.strength then some t else combineSignalsSimplified candidates
  | none => combineSignalsSimplified candidates

/-- A price or indicator pivot `{index, value}` found by `findPivots`. -/
structure Pivot where
  index : ℕ
  value : ℚ
deriving DecidableEq

/-- The pivot highs and lows of one series. -/
structure Pivots where
  highs : List Pivot
  lows : List Pivot
deriving DecidableEq

/-- Inner test of `findPivots`: strict pivot high at index `i`. -/
def isPivotHigh (arr : List ℚ) (look i : ℕ) : Bool :=
  (List.range' 1 look).all (fun j =>
    match arr.get? i, arr.get? (i - j), arr.get? (i + j) with
    | some a, some b, some c => decide (b < a) && decide (c < a)
    | _, _, _ => false)

/-- Inner test of `findPivots`: strict pivot low at index `i`. -/
def isPivotLow (arr : List ℚ) (look i : ℕ) : Bool :=
  (List.range' 1 look).all (fun j =>
    match arr.get? i, arr.get? (i - j), arr.get? (i + j) with
    | some a, some b, some c => decide (a < b) && decide (a < c)
    | _, _, _ => false)

/-- `findPivots` of backtesting-engine.js: strict local highs and lows within a
symmetric `look` window, ordered by index. -/
def findPivots (arr : List ℚ) (look : ℕ) : Pivots :=
  let idxs := List.range' look (arr.length - 2 * look)
  { highs := idxs.filterMap (fun i =>
      if isPivotHigh arr look i then some ⟨i, arr.getD i 0⟩ else none),
    lows := idxs.filterMap (fun i =>
      if isPivotLow arr look i then some ⟨i, arr.getD i 0⟩ else none) }

/-- `checkBullishDivergence` of backtesting-engine.js: over the two most recent pivot
lows, price lower low with indicator higher low and normalized strength at least
`minStr` yields a bullish divergence signal. -/
def checkBullishDivergence (pp rp : Pivots) (minStr : ℚ) : Option Signal :=
  let pl := last2 pp.lows
  let rl := last2 rp.lows
  if pl.length < 2 ∨ rl.length < 2 then none else
  match pl, rl with
  | [pl0, pl1], [rl0, rl1] =>
    if pl1.value < pl0.value ∧ rl0.value < rl1.value then
      let str := |(pl0.value - pl1.value) / pl0.value|
      if minStr ≤ str then
        some { type := SignalType.bullish, strength := min str 1, confidence := 7/10,
               source := "divergence" }
      else none
    else none
  | _, _ => none

/-- `checkBearishDivergence` of backtesting-engine.js: price higher high with indicator
lower high over the two most recent pivot highs. -/
def checkBearishDivergence (pp rp : Pivots) (minStr : ℚ) : Option Signal :=
  let ph := last2 pp.highs
  let rh := last2 rp.highs
  if ph.length < 2 ∨ rh.length < 2 then none else
  match ph, rh with
  | [ph0, ph1], [rh0, rh1] =>
    if ph0.value < ph1.value ∧ rh1.value < rh0.value then
      let str := |(ph1.value - ph0.value) / ph0.value|
      if minStr ≤ str then
        some { type := SignalType.bearish, strength := min str 1, confidence := 7/10,
               source := "divergence" }
      else none
    else none
  | _, _ => none

/-- `detectDivergence` of backtesting-engine.js: pivots of closes and of the RSI series,
bullish checked before bearish. -/
def detectDivergence (priceData : List Candle) (rsiData : List ℚ) (minStr : ℚ) :
    Option Signal :=
  let piv := findPivots (priceData.map (fun c => c.close)) 2
  let rPiv := findPivots rsiData 2
  match checkBullishDivergence piv rPiv minStr with
  | some b => some b
  | none => checkBearishDivergence piv rPiv minStr

/-- `detectRSIExtremes` of backtesting-engine.js: overbought RSI yields a bearish
signal, oversold a bullish one, each gated on `minStr`. -/
def detectRSIExtremes (rsi : ℚ) (minStr : ℚ) : Option Signal :=
  if 70 < rsi then
    let str := min ((rsi - 70) / 30) 1 * (8/10)
    if minStr ≤ str then
      some { type := SignalType.bearish, strength := str, confidence := str * (8/10),
             source := "rsi_overbought" }
    else none
  else if rsi < 30 then
    let str := min ((30 - rsi) / 30) 1 * (8/10)
    if minStr ≤ str then
      some { type := SignalType.bullish, strength := str, confidence := str * (8/10),
             source := "rsi_oversold" }
    else none
  else none

/-- `calculatePnL` of backtesting-engine.js: relative price move times size, minus
round-trip commission. -/
def calculatePnL (entry exit size : ℚ) (type : SignalType) (comm : ℚ) : ℚ :=
  let raw := if type = SignalType.bullish then (exit - entry) / entry * size
             else (entry - exit) / entry * size
  raw - size * comm * 2

/-- `calculatePositionSize` of backtesting-engine.js: `balance * 0.003` risk times a
leverage multiplier adjusted by signal strength, source bonuses and an extreme-RSI
penalty.  The function performs no input validation and never returns null. -/
def calculatePositionSize (balance : ℚ) (signal : Signal) (rsi : ℚ) : ℚ :=
  let risk := balance * (3/1000)
  let lev : ℚ := 8
  let lev := if signal.strength < 4/10 then (6 : ℚ) else lev
  let lev := if (8 : ℚ)/10 < signal.strength then (10 : ℚ) else lev
  let lev := if signal.source = "trend" ∧ (6 : ℚ)/10 < signal.strength then
               min 12 (lev * (12/10)) else lev
  let lev := if signal.source = "combined" ∧ 3 ≤ signal.confirmations.getD 0 then
               min 11 (lev * (11/10)) else lev
  let lev := if (signal.type = SignalType.bullish ∧ 65 < rsi) ∨
                (signal.type = SignalType.bearish ∧ rsi < 35) then
               max 5 (lev * (7/10)) else lev
  risk * lev

/-- `calculateMaxDrawdown` of backtesting-engine.js: largest peak-to-trough relative
decline of the equity curve, as a percentage. -/
def calculateMaxDrawdown (equity : List EquityPoint) : ℚ :=
  match equity with
  | [] => 0
  | e0 :: _ =>
    let r := equity.foldl (fun (acc : ℚ × ℚ) e =>
      if acc.1 < e.value then (e.value, acc.2)
      else (acc.1, max acc.2 ((acc.1 - e.value) / acc.1))) (e0.value, 0)
    r.2 * 100

/-- Modelled from the spec: Wilder smoothing `avg = (avg*(n-1)+x)/n` seeded with the
simple average of the first `period` inputs (spec sections 4.1 and glossary).  It stands
in for the smoothing inside the external `technicalindicators` npm library (used by
backtesting-engine.js for ATR/ADX), whose code is not part of this repository. -/
def wilderSmooth (period : ℕ) (xs : List ℚ) : List ℚ :=
  if xs.length < period ∨ period = 0 then [] else
  let first := sumQ (xs.take period) / (period : ℚ)
  ((xs.drop period).foldl (fun (acc : List ℚ × ℚ) x =>
    let v := (acc.2 * ((period : ℚ) - 1) + x) / (period : ℚ)
    (acc.1 ++ [v], v)) ([first], first)).1

/-- Modelled from the spec: the true-range series `max(high-low, |high-prevClose|,
|low-prevClose|)` feeding ATR (spec section 4.1 and glossary; the library code is not in
this repository). -/
def trueRanges (highs lows closes : List ℚ) : List ℚ :=
  match highs, lows with
  | h0 :: _, l0 :: _ =>
      (h0 - l0) ::
        (((highs.drop 1).zip ((lows.drop 1).zip closes)).map
          (fun x => max (x.1 - x.2.1) (max |x.1 - x.2.2| |x.2.1 - x.2.2|)))
  | _, _ => []

/-- Modelled from the spec: `ATR.calculate` of the external `technicalindicators`
library — standard Wilder ATR, a series shorter than the input by the warmup length
(spec section 4.1). -/
def ATRcalculate (period : ℕ) (highs lows closes : List ℚ) : List ℚ :=
  wilderSmooth period (trueRanges highs lows closes)

/-- Modelled from the spec: `SMA.calculate` of the external `technicalindicators`
library — standard rolling mean, empty when there are not enough values (spec
section 4.1). -/
def SMAcalculate (period : ℕ) (values : List ℚ) : List ℚ :=
  if period = 0 then [] else
  (List.range (values.length + 1 - period)).map
    (fun k => sumQ ((values.drop k).take period) / (period : ℚ))

/-- Modelled from the spec: positive directional movements for ADX. -/
def dmPlus (highs lows : List ℚ) : List ℚ :=
  ((highs.drop 1).zip (highs.zip ((lows.drop 1).zip lows))).map (fun x =>
    let up := x.1 - x.2.1
    let down := x.2.2.2 - x.2.2.1
    if down < up ∧ 0 < up then up else 0)

/-- Modelled from the spec: negative directional movements for ADX. -/
def dmMinus (highs lows : List ℚ) : List ℚ :=
  ((highs.drop 1).zip (highs.zip ((lows.drop 1).zip lows))).map (fun x =>
    let up := x.1 - x.2.1
    let down := x.2.2.2 - x.2.2.1
    if up < down ∧ 0 < down then down else 0)

/-- Modelled from the spec: `ADX.calculate` of the external `technicalindicators`
library — "standard Wilder/ADX formulas producing a series shorter than the input by
the warmup length" (spec section 4.1).  The library returns records; the engine reads
only their `adx` component, so only that series is modelled. -/
def ADXcalculate (period : ℕ) (highs lows closes : List ℚ) : List ℚ :=
  let str := wilderSmooth period ((trueRanges highs lows closes).drop 1)
  let spdm := wilderSmooth period (dmPlus highs lows)
  let smdm := wilderSmooth period (dmMinus highs lows)
  let dxs := (spdm.zip (smdm.zip str)).map (fun x =>
    let pdi := 100 * x.1 / x.2.2
    let mdi := 100 * x.2.1 / x.2.2
    if pdi + mdi = 0 then 0 else 100 * |pdi - mdi| / (pdi + mdi))
  wilderSmooth period dxs

/-- Trailing-stop threshold of step 5.6 of `runBacktest` (backtesting-engine.js lines
121-124): the threshold starts at `-stopPerc` and, only on a candle whose unrealized
profit exceeds 60% of the target distance, is raised to at most `-targetPerc * 0.15`.
The value is recomputed from scratch on every candle; no trailing state is carried
between candles. -/
def trailingStopPerc (stopPerc targetPerc pnlPerc : ℚ) : ℚ :=
  if targetPerc * (6/10) < pnlPerc then max (-stopPerc) (-(targetPerc * (15/100)))
  else -stopPerc

/-- Exit decision of step 5.6 of `runBacktest` (lines 132-134): target reached, stop
(trailing or fixed) breached, or holding period exceeded; priority TARGET, STOP, TIME. -/
def exitReasonFor (stopPerc targetPerc pnlPerc : ℚ) (timeExit : Bool) : Option String :=
  if targetPerc ≤ pnlPerc ∨ pnlPerc ≤ trailingStopPerc stopPerc targetPerc pnlPerc ∨
      timeExit = true then
    some (if targetPerc ≤ pnlPerc then "TARGET"
          else if pnlPerc ≤ trailingStopPerc stopPerc targetPerc pnlPerc then "STOP"
          else "TIME")
  else none

/-- The `params` object of `runBacktest`.  Absent numeric fields are `none`; the source
reads every numeric field through `x || default`, modelled by `jsOr`/`jsOrNat`.  The
fetch-related fields (pair, timeframe, dates) configure the external data collaborator,
not the core simulation, and are omitted.  The source field `minVolumeRatio` is renamed
`minVolumeRat`. -/
structure Params where
  rsiPeriod : Option ℕ := none
  adxPeriod : Option ℕ := none
  atrPeriod : Option ℕ := none
  smaPeriod : Option ℕ := none
  initialBalance : Option ℚ := none
  cooldownCandles : Option ℕ := none
  useLongSMA : Bool := false
  onlyLongs : Bool := false
  onlyShorts : Bool := false
  minAdx : Option ℚ := none
  minVolumeRat : Option ℚ := none
  entryMinStrength : Option ℚ := none
  wmTolerance : Option ℚ := none
  rsiLower : Option ℚ := none
  rsiUpper : Option ℚ := none
  minStrength : Option ℚ := none
  stopLossMultiplier : Option ℚ := none
  takeProfitMultiplier : Option ℚ := none
  maxHoldCandles : Option ℕ := none
  commissionRate : Option ℚ := none
deriving DecidableEq

/-- A realized trade.  The trade pushed by the final forced close (source lines 224-234)
carries no `exitReason` field, modelled as `none`. -/
structure Trade where
  type : SignalType
  entryPrice : ℚ
  exitPrice : ℚ
  entryTime : ℤ
  exitTime : ℤ
  pnl : ℚ
  positionSize : ℚ
  returnPct : ℚ
  commission : ℚ
  exitReason : Option String := none
deriving DecidableEq

/-- An entry-signal record pushed at step 5.7. -/
structure SignalRecord where
  timestamp : ℤ
  type : String
  price : ℚ
  source : String
  strength : ℚ
  rsi : Option ℚ
deriving DecidableEq

/-- Summary metrics of a run. -/
structure Metrics where
  totalReturn : ℚ
  winRate : ℚ
  maxDrawdown : ℚ
deriving DecidableEq

/-- The result record of `runBacktest` (persistence fields aside). -/
structure BacktestResult where
  params : Params
  startTime : ℤ
  endTime : ℤ
  trades : List Trade
  signals : List SignalRecord
  equity : List EquityPoint
  metrics : Metrics
deriving DecidableEq

/-- Mutable state of the main backtest loop.  `lastExitIndex = none` models the JS
initial value `-Infinity`. -/
structure LoopState where
  balance : ℚ
  trades : List Trade
  signals : List SignalRecord
  equity : List EquityPoint
  position : Option SignalType
  entryPrice : ℚ
  positionSize : ℚ
  lastExitIndex : Option ℕ
deriving DecidableEq

/-- Read-only context of the main loop: parameters, candles and the indicator series
computed before the loop (step 3 of `runBacktest`). -/
structure BTContext where
  p : Params
  data : List Candle
  rsiValues : List ℚ
  adxRaw : List ℚ
  atrRaw : List ℚ
  smaLongRaw : List ℚ
  vols : List ℚ
  cooldown : ℕ
deriving DecidableEq

/-- JS array access at a possibly negative index: negative or out of range gives
`undefined` (`none`). -/
def listGetZ {α : Type} (l : List α) (z : ℤ) : Option α :=
  if z < 0 then none else l.get? z.toNat

/-- Step 5.1 of the main loop: with `useLongSMA` and a defined long SMA, a candle is
skipped (`continue`) when no position is open and the configured side filter rejects the
price. -/
def trendFilterSkip (p : Params) (smaLongOpt : Option ℚ) (position : Option SignalType)
    (price : ℚ) : Bool :=
  if p.useLongSMA then
    match smaLongOpt with
    | some smaLong =>
        (decide (position = none) && p.onlyLongs && decide (price < smaLong)) ||
        (decide (position = none) && p.onlyShorts && decide (smaLong < price))
    | none => false
  else false

/-- Step 5.6 of the main loop: evaluate the exit conditions for an open position at
candle `i` and, on exit, realize P&L, append the Trade, clear the position and record
`lastExitIndex = i`.  When the ATR at `i` is undefined the stop/target comparisons are
NaN-false in JS and only the TIME exit can fire. -/
def applyExit (ctx : BTContext) (i : ℕ) (candle : Candle) (s : LoopState) : LoopState :=
  match s.position with
  | none => s
  | some pos =>
    let price := candle.close
    let n := ctx.data.length
    let atrOpt := listGetZ ctx.atrRaw ((i : ℤ) - ((n : ℤ) - (ctx.atrRaw.length : ℤ)))
    let stopMultiplier := jsOr ctx.p.stopLossMultiplier (15/10)
    let targetMultiplier := jsOr ctx.p.takeProfitMultiplier (16/10)
    let pnlPerc := if pos = SignalType.bullish then (price - s.entryPrice) / s.entryPrice
                   else (s.entryPrice - price) / s.entryPrice
    let maxHoldPeriod := jsOrNat ctx.p.maxHoldCandles 36
    let timeExit := match s.lastExitIndex with
      | none => true
      | some e => decide ((maxHoldPeriod : ℤ) ≤ (i : ℤ) - (e : ℤ) - (ctx.cooldown : ℤ))
    let reason := match atrOpt with
      | some atr =>
          exitReasonFor (atr * stopMultiplier / s.entryPrice)
            (atr * targetMultiplier / s.entryPrice) pnlPerc timeExit
      | none => if timeExit then some "TIME" else none
    match reason with
    | some r =>
        let comm := jsOr ctx.p.commissionRate (1/1000)
        let pnl := calculatePnL s.entryPrice price s.positionSize pos comm
        let t : Trade :=
          { type := pos, entryPrice := s.entryPrice, exitPrice := price,
            entryTime := (ctx.data.get? (i - 1)).elim 0 (fun c => c.timestamp),
            exitTime := candle.timestamp, pnl := pnl, positionSize := s.positionSize,
            returnPct := pnl / s.positionSize * 100,
            commission := s.positionSize * comm * 2, exitReason := some r }
        { s with balance := s.balance + pnl, trades := s.trades ++ [t],
                 position := none, lastExitIndex := some i }
    | none => s

/-- Step 5.7 of the main loop: entry filters (minimum strength, cooldown, ADX, volume
ratio, RSI-with-weak-momentum confirmation, signal-quality gate) and position opening. -/
def applyEntry (ctx : BTContext) (i : ℕ) (candle : Candle) (finalSignal : Option Signal)
    (rsiI : Option ℚ) (s : LoopState) : LoopState :=
  match s.position, finalSignal with
  | none, some fs =>
    let price := candle.close
    let cooldownOk : Bool := match s.lastExitIndex with
      | none => true
      | some e => decide ((ctx.cooldown : ℤ) ≤ (i : ℤ) - (e : ℤ))
    if decide (jsOr ctx.p.entryMinStrength (5/100) ≤ fs.strength) && cooldownOk then
      let avgVol := sumQ (jsSlice ctx.vols (i - 5) i) / 5
      let volRat := candle.volume / avgVol
      let adxVal := listGetZ ctx.adxRaw
        ((i : ℤ) - ((ctx.data.length : ℤ) - (ctx.adxRaw.length : ℤ)))
      let adxCheck := match adxVal with
        | some a => decide (jsOr ctx.p.minAdx 20 ≤ a)
        | none => false
      let volCheck := decide (jsOr ctx.p.minVolumeRat (15/10) ≤ volRat)
      let recentChange : ℚ :=
        (ctx.data.get? (i - 3)).elim 0 (fun c3 => (price - c3.close) / c3.close)
      let rsiLow : Bool := match rsiI with
        | some r => decide (r < 30)
        | none => false
      let rsiHigh : Bool := match rsiI with
        | some r => decide ((70 : ℚ) < r)
        | none => false
      let signalWeak0 : Bool := decide (fs.strength < (1 : ℚ)/2)
      let momentumWeakBull : Bool := decide (-((3 : ℚ)/100) < recentChange)
      let momentumWeakBear : Bool := decide ((recentChange : ℚ) < (3 : ℚ)/100)
      let rsiConfirm :=
        if decide (fs.type = SignalType.bullish) && rsiLow then
          momentumWeakBull && signalWeak0
        else if decide (fs.type = SignalType.bearish) && rsiHigh then
          momentumWeakBear && signalWeak0
        else false
      let multiSignalConfirm := decide (fs.source = "combined") &&
        (match fs.confirmations with | some c => decide (2 ≤ c) | none => false)
      let weakSignal := decide ((3 : ℚ)/10 ≤ fs.strength) && decide (fs.strength < 1/2)
      let signalQuality := multiSignalConfirm || weakSignal
      if adxCheck && volCheck && rsiConfirm && signalQuality then
        let rec0 : SignalRecord :=
          { timestamp := candle.timestamp,
            type := if fs.type = SignalType.bullish then "buy" else "sell",
            price := price, source := fs.source, strength := fs.strength, rsi := rsiI }
        { s with position := some fs.type, entryPrice := price,
                 positionSize := calculatePositionSize s.balance fs (rsiI.getD 50),
                 signals := s.signals ++ [rec0] }
      else s
    else s
  | _, _ => s

/-- Step 5.8 of the main loop: append one equity point, realized balance plus the
unrealized P&L of any open position (commission-free). -/
def pushEquity (candle : Candle) (s : LoopState) : LoopState :=
  let unrealized := match s.position with
    | some pos => calculatePnL s.entryPrice candle.close s.positionSize pos 0
    | none => (0 : ℚ)
  { s with equity := s.equity ++
      [{ timestamp := candle.timestamp, value := s.balance + unrealized }] }

/-- One iteration of the main loop (steps 5.1-5.8) at candle index `i`. -/
def loopStep (ctx : BTContext) (s : LoopState) (i : ℕ) : LoopState :=
  match ctx.data.get? i with
  | none => s
  | some candle =>
    let price := candle.close
    let n := ctx.data.length
    let smaLongOpt := listGetZ ctx.smaLongRaw
      ((i : ℤ) - ((n : ℤ) - (ctx.smaLongRaw.length : ℤ)))
    if trendFilterSkip ctx.p smaLongOpt s.position price then s else
    let start := i - 30
    let recentPrices := jsSlice ctx.data start (i + 1)
    let recentRSI := jsSlice ctx.rsiValues start (i + 1)
    let wmSignal := detectWMPatterns recentPrices recentRSI (jsOr ctx.p.wmTolerance 10)
      (jsOr ctx.p.rsiLower 30) (jsOr ctx.p.rsiUpper 70)
    let volumeSignal := analyzeVolumePattern recentPrices (recentPrices.length - 1)
    let candleSignal := analyzeCandlestickPatterns recentPrices (recentPrices.length - 1)
    let divSignal := detectDivergence recentPrices recentRSI (jsOr ctx.p.minStrength (5/100))
    let rsiI := ctx.rsiValues.get? i
    let rsiExtreme := match rsiI with
      | some r => detectRSIExtremes r (jsOr ctx.p.minStrength (2/100))
      | none => none
    let trendSignal := match rsiI with
      | some r => detectTrendSignal recentPrices r i
      | none => none
    let finalSignal := selectFinalSignal trendSignal
      [wmSignal, volumeSignal, candleSignal, divSignal, rsiExtreme]
    let s1 := applyExit ctx i candle s
    let s2 := applyEntry ctx i candle finalSignal rsiI s1
    pushEquity candle s2

/-- Step 3 of `runBacktest`: OHLCV extraction and indicator precomputation. -/
def mkContext (p : Params) (historicalData : List Candle) : BTContext :=
  let closes := historicalData.map (fun c => c.close)
  let highs := historicalData.map (fun c => c.high)
  let lows := historicalData.map (fun c => c.low)
  { p := p, data := historicalData,
    rsiValues := calculateRSI closes (jsOrNat p.rsiPeriod 14),
    adxRaw := ADXcalculate (jsOrNat p.adxPeriod 14) highs lows closes,
    atrRaw := ATRcalculate (jsOrNat p.atrPeriod 14) highs lows closes,
    smaLongRaw := SMAcalculate (jsOrNat p.smaPeriod 50) closes,
    vols := historicalData.map (fun c => c.volume),
    cooldown := jsOrNat p.cooldownCandles 8 }

/-- Step 4 of `runBacktest`: the initial loop state.  The equity curve starts with one
point at the first candle's timestamp and the initial balance. -/
def initialState (p : Params) (historicalData : List Candle) : LoopState :=
  { balance := jsOr p.initialBalance 10000, trades := [], signals := [],
    equity := [{ timestamp := (historicalData.head?).elim 0 (fun c => c.timestamp),
                 value := jsOr p.initialBalance 10000 }],
    position := none, entryPrice := 0, positionSize := 0, lastExitIndex := none }

/-- Step 5 of `runBacktest`: the chronological walk over candles `50 ≤ i < n`. -/
def runLoop (ctx : BTContext) (init : LoopState) : LoopState :=
  (List.range' 50 (ctx.data.length - 50)).foldl (loopStep ctx) init

/-- Step 6 of `runBacktest`: any still-open position is force-closed at the last
candle's close, appending one more Trade (without an `exitReason` field) and one more
equity point. -/
def finalizeRun (p : Params) (historicalData : List Candle) (s : LoopState) : LoopState :=
  match s.position with
  | none => s
  | some pos =>
    match historicalData.getLast? with
    | none => s
    | some last =>
      let comm := jsOr p.commissionRate (1/1000)
      let pnl := calculatePnL s.entryPrice last.close s.positionSize pos comm
      let t : Trade :=
        { type := pos, entryPrice := s.entryPrice, exitPrice := last.close,
          entryTime := (historicalData.get? (historicalData.length - 2)).elim 0
            (fun c => c.timestamp),
          exitTime := last.timestamp, pnl := pnl, positionSize := s.positionSize,
          returnPct := pnl / s.positionSize * 100,
          commission := s.positionSize * comm * 2, exitReason := none }
      let ep : EquityPoint := { timestamp := last.timestamp, value := s.balance + pnl }
      { s with balance := s.balance + pnl, trades := s.trades ++ [t],
               equity := s.equity ++ [ep], position := none }

/-- The pure core of `runBacktest` (backtesting-engine.js, steps 2-7): given the candle
array (fetched by the external market-data collaborator) and the parameters, fail fast
on fewer than 50 candles, otherwise run the simulation and compute the metrics.  The
Redis persistence of step 8 is external I/O and is not part of the core. -/
def runBacktestCore (p : Params) (historicalData : List Candle) :
    Except String BacktestResult :=
  if historicalData.length < 50 then Except.error "Insufficient data" else
  let ctx := mkContext p historicalData
  let final := finalizeRun p historicalData (runLoop ctx (initialState p historicalData))
  let initialBal := jsOr p.initialBalance 10000
  let totalReturn := (final.balance - initialBal) / initialBal * 100
  let winTrades := (final.trades.filter (fun t => decide (0 < t.pnl))).length
  let winRate := if final.trades.length = 0 then 0
                 else ((winTrades : ℚ) / (final.trades.length : ℚ)) * 100
  let m : Metrics :=
    { totalReturn := totalReturn, winRate := winRate,
      maxDrawdown := calculateMaxDrawdown final.equity }
  let res : BacktestResult :=
    { params := p,
      startTime := (historicalData.head?).elim 0 (fun c => c.timestamp),
      endTime := (historicalData.getLast?).elim 0 (fun c => c.timestamp),
      trades := final.trades, signals := final.signals, equity := final.equity,
      metrics := m }
  Except.ok res

end BacktestingEngine

/-- A JS double-precision value as observed on the engine's RSI code path: a rational,
`NaN`, or a signed infinity.  Used to model exactly the one place where JS float special
values are reachable from rational inputs (the unguarded first Wilder RSI value). -/
inductive JSNum where
  | num (q : ℚ)
  | nan
  | inf
  | ninf
deriving DecidableEq

namespace JSNum

/-- JS addition on `JSNum`. -/
def add : JSNum → JSNum → JSNum
  | nan, _ => nan
  | _, nan => nan
  | inf, ninf => nan
  | ninf, inf => nan
  | inf, _ => inf
  | _, inf => inf
  | ninf, _ => ninf
  | _, ninf => ninf
  | num a, num b => num (a + b)

/-- JS negation on `JSNum`. -/
def neg : JSNum → JSNum
  | nan => nan
  | inf => ninf
  | ninf => inf
  | num a => num (-a)

/-- JS subtraction on `JSNum`. -/
def sub (x y : JSNum) : JSNum := add x (neg y)

/-- JS multiplication on `JSNum`. -/
def mul : JSNum → JSNum → JSNum
  | nan, _ => nan
  | _, nan => nan
  | inf, inf => inf
  | inf, ninf => ninf
  | ninf, inf => ninf
  | ninf, ninf => inf
  | inf, num b => if b = 0 then nan else if 0 < b then inf else ninf
  | ninf, num b => if b = 0 then nan else if 0 < b then ninf else inf
  | num a, inf => if a = 0 then nan else if 0 < a then inf else ninf
  | num a, ninf => if a = 0 then nan else if 0 < a then ninf else inf
  | num a, num b => num (a * b)

/-- JS division on `JSNum`; in particular `0/0 = NaN` and `x/0 = ±Infinity` for
nonzero `x`. -/
def div : JSNum → JSNum → JSNum
  | nan, _ => nan
  | _, nan => nan
  | inf, inf => nan
  | inf, ninf => nan
  | ninf, inf => nan
  | ninf, ninf => nan
  | inf, num b => if 0 ≤ b then inf else ninf
  | ninf, num b => if 0 ≤ b then ninf else inf
  | num _, inf => num 0
  | num _, ninf => num 0
  | num a, num b =>
      if b = 0 then (if a = 0 then nan else if 0 < a then inf else ninf)
      else num (a / b)

/-- JS `Math.max` on `JSNum` (NaN-propagating). -/
def maxJ : JSNum → JSNum → JSNum
  | nan, _ => nan
  | _, nan => nan
  | inf, _ => inf
  | _, inf => inf
  | ninf, y => y
  | x, ninf => x
  | num a, num b => num (max a b)

/-- JS strict equality with the number literal `0`. -/
def isZero : JSNum → Bool
  | num a => decide (a = 0)
  | _ => false

/-- Whether a JS value is an ordinary number lying in the closed interval `[0, 100]`
(`NaN` and the infinities are not). -/
def inRSIRange : JSNum → Bool
  | num a => decide (0 ≤ a ∧ a ≤ 100)
  | _ => false

end JSNum

/-- Left-fold sum of JS values. -/
def sumJ (l : List JSNum) : JSNum := l.foldl JSNum.add (JSNum.num 0)

namespace BacktestingEngine

/-- The engine's `calculateRSI` under exact JS number semantics (`JSNum`).  It differs
from the rational model `calculateRSI` only where JS float special values arise: the
first Wilder value (source line 456) is pushed without the `avgL === 0` guard that
protects every later value, so when the first `period` price changes contain no gains
and no losses it is `100 - 100/(1 + 0/0) = NaN`. -/
def calculateRSIjs (prices : List JSNum) (period : ℕ) : List JSNum :=
  if prices.length < period + 1 then List.replicate prices.length (JSNum.num 50) else
  let diffs := ((prices.drop 1).zip prices).map (fun pq => JSNum.sub pq.1 pq.2)
  let gains := diffs.map (fun d => JSNum.maxJ d (JSNum.num 0))
  let losses := diffs.map (fun d => JSNum.maxJ (JSNum.neg d) (JSNum.num 0))
  let avgG0 := JSNum.div (sumJ (gains.take period)) (JSNum.num period)
  let avgL0 := JSNum.div (sumJ (losses.take period)) (JSNum.num period)
  let first := JSNum.sub (JSNum.num 100)
    (JSNum.div (JSNum.num 100) (JSNum.add (JSNum.num 1) (JSNum.div avgG0 avgL0)))
  let rest := (gains.drop period).zip (losses.drop period)
  let step := fun (acc : List JSNum × JSNum × JSNum) (gl : JSNum × JSNum) =>
    let avgG := JSNum.div
      (JSNum.add (JSNum.mul acc.2.1 (JSNum.num ((period : ℚ) - 1))) gl.1) (JSNum.num period)
    let avgL := JSNum.div
      (JSNum.add (JSNum.mul acc.2.2 (JSNum.num ((period : ℚ) - 1))) gl.2) (JSNum.num period)
    let v := if JSNum.isZero avgL then JSNum.num 100 else
      JSNum.sub (JSNum.num 100)
        (JSNum.div (JSNum.num 100) (JSNum.add (JSNum.num 1) (JSNum.div avgG avgL)))
    (acc.1 ++ [v], avgG, avgL)
  List.replicate period (JSNum.num 50) ++ [first] ++ (rest.foldl step ([], avgG0, avgL0)).1

end BacktestingEngine

/-- Decimal.js `toFixed(dp)` with the default ROUND_HALF_UP (round half away from
zero). -/
def roundDp (dp : ℕ) (x : ℚ) : ℚ :=
  if 0 ≤ x then ((⌊x * 10 ^ dp + 1/2⌋ : ℤ) : ℚ) / 10 ^ dp
  else -(((⌊(-x) * 10 ^ dp + 1/2⌋ : ℤ) : ℚ) / 10 ^ dp)

namespace TechnicalIndicators

/-- `TechnicalIndicators.calculateRSI` (technical-indicators.js lines 171-250):
TradingView-compatible Wilder RSI.  Inputs are parsed and filtered to valid positive
numbers (NaN entries are not representable in `ℚ`, so validity here is positivity).
With fewer than `period+1` raw prices, or fewer than `period+1` valid prices, the empty
sequence is returned.  Unlike the engine's version, both the first value and the
recursion guard `avgLoss === 0`, so rational division is exact.  Final values are
rounded to the class precision of 8 decimals. -/
def calculateRSI (prices : List ℚ) (period : ℕ) : List ℚ :=
  if prices.length < period + 1 then [] else
  let validPrices := prices.filter (fun p => decide (0 < p))
  if validPrices.length < period + 1 then [] else
  let changes := ((validPrices.drop 1).zip validPrices).map (fun pq => pq.1 - pq.2)
  let gains := changes.map (fun c => if 0 < c then c else 0)
  let losses := changes.map (fun c => if c < 0 then |c| else 0)
  let avgGain0 := sumQ (gains.take period) / (period : ℚ)
  let avgLoss0 := sumQ (losses.take period) / (period : ℚ)
  let first := if avgLoss0 = 0 then (100 : ℚ) else 100 - 100 / (1 + avgGain0 / avgLoss0)
  let rest := (gains.drop period).zip (losses.drop period)
  let out := (rest.foldl (fun (acc : List ℚ × ℚ × ℚ) gl =>
    let avgGain := (acc.2.1 * ((period : ℚ) - 1) + gl.1) / (period : ℚ)
    let avgLoss := (acc.2.2 * ((period : ℚ) - 1) + gl.2) / (period : ℚ)
    let v := if avgLoss = 0 then (100 : ℚ) else 100 - 100 / (1 + avgGain / avgLoss)
    (acc.1 ++ [v], avgGain, avgLoss)) ([first], avgGain0, avgLoss0)).1
  out.map (roundDp 8)

end TechnicalIndicators

namespace PositionCalculator

/-- The configuration slice read by the position calculator and risk manager
(config.js): trading and risk-management constants with their source defaults. -/
structure Config where
  maxAccountRisk : ℚ := 2/100
  stopLossPercent : ℚ := 15/1000
  takeProfitPercent : ℚ := 4/100
  maxOpenPositions : ℕ := 3
  maxDailyLoss : ℚ := 6/100
  maxWeeklyLoss : ℚ := 10/100
  emergencyStopLoss : ℚ := 8/100
  maxConcentration : ℚ := 1/2
deriving DecidableEq

/-- `pair.split('-')[0]`: the asset symbol before the first dash. -/
def assetOf (pair : String) : String := (pair.splitOn "-").headD pair

/-- The record returned by `calculatePositionSize` (position-calculator.js lines
63-73).  The calculator never sets a `pair` field (`none`). -/
structure PositionSizeResult where
  positionSizeUnits : ℚ
  positionValue : ℚ
  riskAmount : ℚ
  riskPercent : ℚ
  leverage : ℚ
  priceRisk : ℚ
  entryPrice : ℚ
  stopLoss : ℚ
  isLong : Bool
  pair : Option String := none
deriving DecidableEq

/-- `calculatePositionSize` of position-calculator.js: 2%-risk-rule sizing.  The input
validation throws (caught to `null`) on a falsy or non-positive balance / entry price,
or a falsy stop loss; a non-positive price risk also throws to `null`.  Decimal.js
arithmetic is modelled over `ℚ` with the `toFixed` roundings of the result record. -/
def calculatePositionSize (cfg : Config)
    (accountBalance entryPrice stopLoss riskPercent : ℚ) : Option PositionSizeResult :=
  if accountBalance = 0 ∨ entryPrice = 0 ∨ stopLoss = 0 ∨ accountBalance ≤ 0 ∨
      entryPrice ≤ 0 then none
  else
    let rp := if cfg.maxAccountRisk < riskPercent then cfg.maxAccountRisk else riskPercent
    let riskAmount := accountBalance * rp
    let isLong := decide (stopLoss < entryPrice)
    let priceRisk := if isLong then entryPrice - stopLoss else stopLoss - entryPrice
    if priceRisk ≤ 0 then none
    else
      let positionSizeUnits := riskAmount / priceRisk
      let positionValue := positionSizeUnits * entryPrice
      let maxPositionValue := accountBalance * cfg.maxConcentration
      let finalPositionValue := min positionValue maxPositionValue
      let finalPositionSize := finalPositionValue / entryPrice
      let actualRiskAmount := finalPositionSize * priceRisk
      let actualRiskPercent := actualRiskAmount / accountBalance
      let leverage := finalPositionValue / accountBalance
      some { positionSizeUnits := roundDp 8 finalPositionSize,
             positionValue := roundDp 2 finalPositionValue,
             riskAmount := roundDp 2 actualRiskAmount,
             riskPercent := roundDp 4 (actualRiskPercent * 100),
             leverage := roundDp 2 leverage,
             priceRisk := roundDp 8 priceRisk,
             entryPrice := entryPrice, stopLoss := stopLoss,
             isLong := isLong, pair := none }

/-- Result of `calculateStopLossAndTakeProfit`; the source field `riskRewardRatio` is
named `riskReward` here. -/
structure StopTakeLevels where
  stopLoss : ℚ
  takeProfit : ℚ
  riskReward : ℚ
  riskDistance : ℚ
  rewardDistance : ℚ
deriving DecidableEq

/-- `calculateStopLossAndTakeProfit` of position-calculator.js. -/
def calculateStopLossAndTakeProfit (entryPrice : ℚ) (isLong : Bool)
    (stopLossPercent takeProfitPercent : ℚ) : StopTakeLevels :=
  let stopLoss := if isLong then entryPrice * (1 - stopLossPercent)
                  else entryPrice * (1 + stopLossPercent)
  let takeProfit := if isLong then entryPrice * (1 + takeProfitPercent)
                    else entryPrice * (1 - takeProfitPercent)
  let riskDistance := if isLong then entryPrice - stopLoss else stopLoss - entryPrice
  let rewardDistance := if isLong then takeProfit - entryPrice else entryPrice - takeProfit
  { stopLoss := roundDp 8 stopLoss, takeProfit := roundDp 8 takeProfit,
    riskReward := roundDp 2 (rewardDistance / riskDistance),
    riskDistance := roundDp 8 riskDistance, rewardDistance := roundDp 8 rewardDistance }

end PositionCalculator

/-- A position tracked by the risk manager (risk-manager.js `addPosition`): the stored
record has an external `id` (a uuid in the source — supplied here by the caller since
uuid generation is external nondeterminism) and carries no `positionValue` field, hence
the `Option` defaulting to `none`. -/
structure TrackedPosition where
  id : String
  pair : String
  side : String
  entryPrice : ℚ
  size : ℚ
  stopLoss : ℚ
  takeProfit : ℚ
  riskAmount : ℚ
  positionValue : Option ℚ := none
deriving DecidableEq

namespace PositionCalculator

/-- Validation outcome of `validatePosition`. -/
structure ValidationOutcome where
  isValid : Bool
  errors : List String
  warnings : List String
deriving DecidableEq

/-- `validatePosition` of position-calculator.js.  Error and warning messages are
modelled without their interpolated numeric values. -/
def validatePosition (cfg : Config) (position : PositionSizeResult) (accountBalance : ℚ)
    (currentPositions : List TrackedPosition) : ValidationOutcome :=
  let errors1 : List String :=
    if cfg.maxAccountRisk * 100 < position.riskPercent then ["Risk exceeds maximum"] else []
  let errors2 :=
    if cfg.maxOpenPositions ≤ currentPositions.length then
      errors1 ++ ["Maximum positions already open"]
    else errors1
  let currentValue := currentPositions.foldl (fun s pos => s + pos.positionValue.getD 0) 0
  let newTotalValue := currentValue + position.positionValue
  let concentrationPercent := newTotalValue / accountBalance
  let errors3 :=
    if cfg.maxConcentration < concentrationPercent then
      errors2 ++ ["Total position concentration exceeds maximum"]
    else errors2
  let warnings1 : List String :=
    if position.positionValue < accountBalance * (1/1000) then
      ["Position value is very small"]
    else []
  let levels := calculateStopLossAndTakeProfit position.entryPrice position.isLong
    (15/1000) (4/100)
  let warnings2 :=
    if levels.riskReward < 2 then
      warnings1 ++ ["Risk-reward ratio is below recommended minimum of 2"]
    else warnings1
  let sameAssetPositions := currentPositions.filter (fun pos =>
    decide (pos.pair ≠ "") &&
      (match position.pair with
       | some pp => decide (pp ≠ "") && decide (assetOf pos.pair = assetOf pp)
       | none => false))
  let warnings3 :=
    if 0 < sameAssetPositions.length then
      warnings2 ++ ["Already have positions in same asset"]
    else warnings2
  { isValid := decide (errors3 = []), errors := errors3, warnings := warnings3 }

/-- `checkDailyLossLimits` of position-calculator.js: a new position is allowed unless
the realized daily loss plus its risk exceeds the configured maximum daily loss. -/
def checkDailyLossLimits (cfg : Config) (accountBalance dailyPnL newPositionRisk : ℚ) :
    Bool :=
  let maxDailyLoss := accountBalance * cfg.maxDailyLoss
  let potentialDailyLoss := |min dailyPnL 0| + newPositionRisk
  decide (¬ maxDailyLoss < potentialDailyLoss)

end PositionCalculator

namespace RiskManager

/-- A trade request passed to `validateTrade`. -/
structure TradeRequest where
  pair : String
  side : String
  entryPrice : ℚ
  stopLoss : ℚ
  size : ℚ
deriving DecidableEq

/-- The result record of `validateTrade`. -/
structure ValidationResult where
  approved : Bool
  reason : Option String := none
  riskLevel : String
  warnings : List String := []
  position : Option PositionCalculator.PositionSizeResult := none
  correlationWarning : Option String := none
deriving DecidableEq

/-- Correlation assessment of `checkCorrelationRisk`. -/
structure CorrelationRisk where
  isHigh : Bool
  reason : Option String
  warning : Option String
deriving DecidableEq

/-- Mutable state of the risk manager (risk-manager.js constructor). -/
structure RMState where
  positions : List TrackedPosition
  dailyPnL : ℚ
  weeklyPnL : ℚ
  accountBalance : ℚ
  emergencyStopTriggered : Bool
  dailyLossLimitReached : Bool
  weeklyLossLimitReached : Bool
deriving DecidableEq

/-- `checkCorrelationRisk` of risk-manager.js: two or more existing positions in the
same asset are high risk; positions in the hard-coded correlated assets (BTC ↔ ETH)
only produce a warning.  Messages are modelled without interpolated values. -/
def checkCorrelationRisk (positions : List TrackedPosition) (pair : String) :
    CorrelationRisk :=
  let asset := PositionCalculator.assetOf pair
  let sameAssetPositions := positions.filter (fun pos =>
    decide (PositionCalculator.assetOf pos.pair = asset))
  if 2 ≤ sameAssetPositions.length then
    { isHigh := true, reason := some "Already have positions in this asset",
      warning := none }
  else
    let correlated : List String :=
      if asset = "BTC" then ["ETH"] else if asset = "ETH" then ["BTC"] else []
    let correlatedPositions := positions.filter (fun pos =>
      correlated.contains (PositionCalculator.assetOf pos.pair))
    if 0 < correlatedPositions.length then
      { isHigh := false, reason := none,
        warning := some "Potentially correlated with existing positions" }
    else { isHigh := false, reason := none, warning := none }

/-- `validateTrade` of risk-manager.js (lines 83-198): the ordered chain of risk
checks.  The emergency stop is checked first and rejects with the exact reason string
"Emergency stop activated" regardless of the request and of every later check.
`validateTrade` reads but never mutates the state. -/
def validateTrade (cfg : PositionCalculator.Config) (s : RMState) (req : TradeRequest) :
    ValidationResult :=
  if s.emergencyStopTriggered then
    { approved := false, reason := some "Emergency stop activated",
      riskLevel := "CRITICAL" }
  else if s.dailyLossLimitReached then
    { approved := false, reason := some "Daily loss limit reached", riskLevel := "HIGH" }
  else if s.weeklyLossLimitReached then
    { approved := false, reason := some "Weekly loss limit reached", riskLevel := "HIGH" }
  else if cfg.maxOpenPositions ≤ s.positions.length then
    { approved := false, reason := some "Maximum positions already open",
      riskLevel := "MEDIUM" }
  else
    match PositionCalculator.calculatePositionSize cfg s.accountBalance req.entryPrice
        req.stopLoss cfg.maxAccountRisk with
    | none =>
        { approved := false, reason := some "Position calculation failed",
          riskLevel := "HIGH" }
    | some position =>
      let validation := PositionCalculator.validatePosition cfg position s.accountBalance
        s.positions
      if validation.isValid = false then
        { approved := false, reason := some (String.intercalate ", " validation.errors),
          riskLevel := "HIGH", warnings := validation.warnings }
      else if PositionCalculator.checkDailyLossLimits cfg s.accountBalance s.dailyPnL
          position.riskAmount = false then
        { approved := false, reason := some "Would exceed daily loss limit",
          riskLevel := "HIGH" }
      else
        let corr := checkCorrelationRisk s.positions req.pair
        if corr.isHigh then
          { approved := false, reason := corr.reason, riskLevel := "MEDIUM" }
        else
          { approved := true, riskLevel := "LOW", warnings := validation.warnings,
            position := some position, correlationWarning := corr.warning }

/-- External events driving the risk-manager state: a validation query (pure read), the
manual emergency-stop reset, the internal emergency-stop trigger
(`triggerEmergencyStop`), a realized-P&L update (`updateDailyPnL`), the daily rollover
(`resetDailyTracking`), and position tracking. -/
inductive RMEvent where
  | validate (req : TradeRequest)
  | resetEmergencyStop
  | triggerEmergencyStop (reason : String)
  | updateDailyPnL (pnl : ℚ)
  | resetDailyTracking
  | addPosition (p : TrackedPosition)
  | removePosition (pid : String)
deriving DecidableEq

/-- One step of the risk-manager state machine; a `validate` event leaves the state
unchanged and emits the validation result. -/
def rmStep (cfg : PositionCalculator.Config) (s : RMState) :
    RMEvent → RMState × Option ValidationResult
  | RMEvent.validate req => (s, some (validateTrade cfg s req))
  | RMEvent.resetEmergencyStop => ({ s with emergencyStopTriggered := false }, none)
  | RMEvent.triggerEmergencyStop _ => ({ s with emergencyStopTriggered := true }, none)
  | RMEvent.updateDailyPnL pnl =>
      let dailyPnL := s.dailyPnL + pnl
      let dailyLoss := if dailyPnL < 0 then |dailyPnL| else 0
      let dailyLossPercent := dailyLoss / s.accountBalance
      let flag := if cfg.maxDailyLoss ≤ dailyLossPercent then true
                  else s.dailyLossLimitReached
      ({ s with dailyPnL := dailyPnL, dailyLossLimitReached := flag }, none)
  | RMEvent.resetDailyTracking =>
      ({ s with dailyPnL := 0, dailyLossLimitReached := false }, none)
  | RMEvent.addPosition p => ({ s with positions := s.positions ++ [p] }, none)
  | RMEvent.removePosition pid =>
      ({ s with positions := s.positions.filter (fun q => decide (q.id ≠ pid)) }, none)

/-- Run a list of events, collecting the responses of the `validate` events in order. -/
def rmRun (cfg : PositionCalculator.Config) (s : RMState) :
    List RMEvent → RMState × List ValidationResult
  | [] => (s, [])
  | e :: rest =>
      let step := rmStep cfg s e
      let next := rmRun cfg step.1 rest
      (next.1, step.2.toList ++ next.2)

end RiskManager

namespace RSIDivergenceEngine

/-- A local price extreme `{index, timestamp, price}` (rsi-divergence-engine.js
`findLocalExtremes`). -/
structure PricePoint where
  index : ℕ
  timestamp : ℤ
  price : ℚ
deriving DecidableEq

/-- A local RSI extreme `{index, timestamp, rsi}` (`findRSIExtremes`). -/
structure RSIPoint where
  index : ℕ
  timestamp : ℤ
  rsi : ℚ
deriving DecidableEq

/-- An emitted divergence signal.  The uuid `id` (external nondeterminism) is
omitted. -/
structure Divergence where
  pair : String
  type : SignalType
  strength : ℚ
  timestamp : ℤ
  pricePoints : List PricePoint
  rsiPoints : List RSIPoint
  signal : String
  confidence : ℚ
deriving DecidableEq

/-- `findCorrespondingRSI`: the first RSI point within five minutes of the target
timestamp. -/
def findCorrespondingRSI (rsiData : List RSIPoint) (timestamp : ℤ) : Option RSIPoint :=
  rsiData.find? (fun r => decide (|r.timestamp - timestamp| ≤ 5 * 60 * 1000))

/-- `calculateConfidence`: capped normalized price change and RSI change, averaged. -/
def calculateConfidence (priceChange rsiChange : ℚ) : ℚ :=
  (min 1 (priceChange * 10) + min 1 (rsiChange / 20)) / 2

/-- `checkBullishDivergences` of rsi-divergence-engine.js (lines 182-235), returning
the list of divergences handed to `processDivergenceSignal` (whose Redis persistence
and pub/sub are external I/O).  Only the two most recent price lows form the candidate
pair; their matching RSI points are looked up in the full RSI-lows list by timestamp,
and a bullish divergence needs a lower price low with a higher RSI low and a strength
of at least `0.1`. -/
def checkBullishDivergences (pair : String) (priceLows : List PricePoint)
    (rsiLows : List RSIPoint) : List Divergence :=
  if priceLows.length < 2 ∨ rsiLows.length < 2 then [] else
  match last2 priceLows with
  | [priceLow1, priceLow2] =>
    match findCorrespondingRSI rsiLows priceLow1.timestamp,
          findCorrespondingRSI rsiLows priceLow2.timestamp with
    | some rsiLow1, some rsiLow2 =>
      if priceLow2.price < priceLow1.price ∧ rsiLow1.rsi < rsiLow2.rsi then
        let priceChange := |(priceLow2.price - priceLow1.price) / priceLow1.price|
        let rsiChange := |rsiLow2.rsi - rsiLow1.rsi|
        let strength := min 1 ((priceChange * 100 + rsiChange) / 20)
        if (1 : ℚ)/10 ≤ strength then
          [{ pair := pair, type := SignalType.bullish, strength := strength,
             timestamp := priceLow2.timestamp, pricePoints := [priceLow1, priceLow2],
             rsiPoints := [rsiLow1, rsiLow2], signal := "BUY",
             confidence := calculateConfidence priceChange rsiChange }]
        else []
      else []
    | _, _ => []
  | _ => []

/-- `checkBearishDivergences` of rsi-divergence-engine.js (lines 243-296): a higher
price high with a lower RSI high over the two most recent price highs. -/
def checkBearishDivergences (pair : String) (priceHighs : List PricePoint)
    (rsiHighs : List RSIPoint) : List Divergence :=
  if priceHighs.length < 2 ∨ rsiHighs.length < 2 then [] else
  match last2 priceHighs with
  | [priceHigh1, priceHigh2] =>
    match findCorrespondingRSI rsiHighs priceHigh1.timestamp,
          findCorrespondingRSI rsiHighs priceHigh2.timestamp with
    | some rsiHigh1, some rsiHigh2 =>
      if priceHigh1.price < priceHigh2.price ∧ rsiHigh2.rsi < rsiHigh1.rsi then
        let priceChange := |(priceHigh2.price - priceHigh1.price) / priceHigh1.price|
        let rsiChange := |rsiHigh2.rsi - rsiHigh1.rsi|
        let strength := min 1 ((priceChange * 100 + rsiChange) / 20)
        if (1 : ℚ)/10 ≤ strength then
          [{ pair := pair, type := SignalType.bearish, strength := strength,
             timestamp := priceHigh2.timestamp, pricePoints := [priceHigh1, priceHigh2],
             rsiPoints := [rsiHigh1, rsiHigh2], signal := "SELL",
             confidence := calculateConfidence priceChange rsiChange }]
        else []
      else []
    | _, _ => []
  | _ => []

end RSIDivergenceEngine

/-- A flat candle (constant price, constant volume). -/
def flatCandle : Candle :=
  { timestamp := 0, opn := 100, high := 101, low := 99, close := 100,
    volume := 1000000 }

/-- A flat 50-candle series, the minimal input accepted by the backtest entrypoint. -/
def flatCandles50 : List Candle := List.replicate 50 flatCandle

/-- The result of running the backtest core on `flatCandles50` with default
parameters: the loop body never runs (indices 50 ≤ i < 50), so the run produces no
trades and the equity curve holds only the initial point. -/
def flatResult : BacktestingEngine.BacktestResult :=
  { params := {}, startTime := 0, endTime := 0, trades := [], signals := [],
    equity := [{ timestamp := 0, value := 10000 }],
    metrics := { totalReturn := 0, winRate := 0, maxDrawdown := 0 } }

/-- A risk-manager state whose emergency stop has been triggered. -/
def stoppedState : RiskManager.RMState :=
  { positions := [], dailyPnL := -800, weeklyPnL := -800, accountBalance := 10000,
    emergencyStopTriggered := true, dailyLossLimitReached := false,
    weeklyLossLimitReached := false }

/-- A reset-free demonstration trace: two validation requests around a P&L update. -/
def demoTrace : List RiskManager.RMEvent :=
  [RiskManager.RMEvent.validate
     { pair := "BTC-USDT", side := "buy", entryPrice := 50000, stopLoss := 49000,
       size := 1/10 },
   RiskManager.RMEvent.updateDailyPnL (-100),
   RiskManager.RMEvent.validate
     { pair := "ETH-USDT", side := "sell", entryPrice := 3000, stopLoss := 3100,
       size := 1 }]

/-- From the spec's wording of the combination rule: a direction's candidate list
qualifies when it holds at least one signal with strength above the strong threshold
0.4 or at least two agreeing signals. -/
def BacktestingEngine.directionQualifies (l : List Signal) : Prop :=
  (∃ x ∈ l, (4 : ℚ)/10 < x.strength) ∨ 2 ≤ l.length

instance (l : List Signal) : Decidable (BacktestingEngine.directionQualifies l) := by
  unfold BacktestingEngine.directionQualifies
  infer_instance

/-- From the spec's wording: the combined signal built from one direction's
contributing candidates — mean strength and confidence, `confirmations` their count,
source `"combined"`. -/
def BacktestingEngine.combinedOf (ty : SignalType) (l : List Signal) : Signal :=
  { type := ty, strength := BacktestingEngine.avgStrength l,
    confidence := BacktestingEngine.avgConfidence l, source := "combined",
    confirmations := some l.length }

/-- Drop the neutral-typed candidates from a candidate list (claim C10's wording:
neutral candidates are never counted toward either direction). -/
def BacktestingEngine.dropNeutral (signals : List (Option Signal)) :
    List (Option Signal) :=
  signals.map (fun o => o.bind (fun x =>
    if x.type = SignalType.neutral then none else some x))

/-- A bullish strength-0.5 hammer candidate, used in the combiner examples. -/
def bullCandidate : Signal :=
  { type := SignalType.bullish, strength := 1/2, confidence := 7/10, source := "hammer" }

/-- A bearish strength-0.5 volume candidate, used in the combiner examples. -/
def bearCandidate : Signal :=
  { type := SignalType.bearish, strength := 1/2, confidence := 7/10, source := "vol-" }

/-! ## Theorems -/

/-- Helper for C2: any event other than the manual reset preserves a triggered
emergency stop. -/
theorem rmStep_keeps_emergencyStop (cfg : PositionCalculator.Config)
    (s : RiskManager.RMState) (e : RiskManager.RMEvent)
    (hstop : s.emergencyStopTriggered = true)
    (hne : e ≠ RiskManager.RMEvent.resetEmergencyStop) :
    ((RiskManager.rmStep cfg s e).1).emergencyStopTriggered = true := by
  cases e with
  | validate req => simpa [RiskManager.rmStep] using hstop
  | resetEmergencyStop => exact absurd rfl hne
  | triggerEmergencyStop reason => simp [RiskManager.rmStep]
  | updateDailyPnL pnl => simpa [RiskManager.rmStep] using hstop
  | resetDailyTracking => simpa [RiskManager.rmStep] using hstop
  | addPosition p => simpa [RiskManager.rmStep] using hstop
  | removePosition pid => simpa [RiskManager.rmStep] using hstop

/-- Helper for C2: a stopped state rejects any request with the exact emergency
reason, before any other check can run. -/
theorem validateTrade_emergency (cfg : PositionCalculator.Config)
    (s : RiskManager.RMState) (req : RiskManager.TradeRequest)
    (hstop : s.emergencyStopTriggered = true) :
    RiskManager.validateTrade cfg s req =
      { approved := false, reason := some "Emergency stop activated",
        riskLevel := "CRITICAL" } := by
  simp [RiskManager.validateTrade, hstop]

/-- Helper for C2: along any reset-free event trace out of a stopped state, every
validation response is the emergency rejection. -/
theorem rmRun_emergency_aux (cfg : PositionCalculator.Config) :
    ∀ (evts : List RiskManager.RMEvent) (s : RiskManager.RMState),
      s.emergencyStopTriggered = true →
      RiskManager.RMEvent.resetEmergencyStop ∉ evts →
      ∀ r ∈ (RiskManager.rmRun cfg s evts).2,
        r.approved = false ∧ r.reason = some "Emergency stop activated" := by
  intro evts
  induction evts with
  | nil => intro s _ _ r hr; simp [RiskManager.rmRun] at hr
  | cons e rest ih =>
    intro s hstop hnr r hr
    have hne : e ≠ RiskManager.RMEvent.resetEmergencyStop := by
      intro h
      exact hnr (by simp [h])
    have hnr' : RiskManager.RMEvent.resetEmergencyStop ∉ rest := by
      intro h
      exact hnr (by simp [h])
    have hstop' := rmStep_keeps_emergencyStop cfg s e hstop hne
    simp only [RiskManager.rmRun, List.mem_append] at hr
    rcases hr with hr | hr
    · cases e with
      | validate req =>
          have hr' : r = RiskManager.validateTrade cfg s req := by
            simpa [RiskManager.rmStep] using hr
          rw [hr', validateTrade_emergency cfg s req hstop]
          exact ⟨rfl, rfl⟩
      | resetEmergencyStop => exact absurd rfl hne
      | triggerEmergencyStop reason => simp [RiskManager.rmStep] at hr
      | updateDailyPnL pnl => simp [RiskManager.rmStep] at hr
      | resetDailyTracking => simp [RiskManager.rmStep] at hr
      | addPosition p => simp [RiskManager.rmStep] at hr
      | removePosition pid => simp [RiskManager.rmStep] at hr
    · exact ih (RiskManager.rmStep cfg s e).1 hstop' hnr' r hr

/-- C2: after the emergency stop has been triggered, every `validateTrade` call is
rejected with `approved = false` and reason exactly "Emergency stop activated",
regardless of the trade request's contents and of all other checks; the rejection
persists along every subsequent reset-free event trace, and `resetEmergencyStop()`
clears the stopped state. -/
theorem emergency_stop_rejects_all (cfg : PositionCalculator.Config)
    (s : RiskManager.RMState) (evts : List RiskManager.RMEvent)
    (hstop : s.emergencyStopTriggered = true)
    (hnr : RiskManager.RMEvent.resetEmergencyStop ∉ evts) :
    (∀ r ∈ (RiskManager.rmRun cfg s evts).2,
        r.approved = false ∧ r.reason = some "Emergency stop activated") ∧
    ((RiskManager.rmStep cfg s
        RiskManager.RMEvent.resetEmergencyStop).1).emergencyStopTriggered = false :=
  ⟨rmRun_emergency_aux cfg evts s hstop hnr, by simp [RiskManager.rmStep]⟩

/-- Witness for C2: the stopped state rejects both requests of a concrete reset-free
trace, and the reset clears the flag. -/
theorem emergency_stop_rejects_all_witness :
    (∀ r ∈ (RiskManager.rmRun {} stoppedState demoTrace).2,
        r.approved = false ∧ r.reason = some "Emergency stop activated") ∧
    ((RiskManager.rmStep {} stoppedState
        RiskManager.RMEvent.resetEmergencyStop).1).emergencyStopTriggered = false :=
  emergency_stop_rejects_all {} stoppedState demoTrace rfl (by
    simp [demoTrace])

/-- C9: the backtest core simulation is deterministic — it is a pure function of the
candle array and configuration, so identical inputs give identical trades, equity
curves and metrics across repeated runs.  (The randomized synthetic-data generator and
the exchange fetch are external collaborators that produce the input; neither is part
of `runBacktestCore`, which contains no source of nondeterminism.) -/
theorem backtest_deterministic (p₁ p₂ : BacktestingEngine.Params) (d₁ d₂ : List Candle)
    (hp : p₁ = p₂) (hd : d₁ = d₂) :
    BacktestingEngine.runBacktestCore p₁ d₁ = BacktestingEngine.runBacktestCore p₂ d₂ := by
  rw [hp, hd]

/-- Witness for C9: determinism instantiated at default parameters and a concrete
50-candle series. -/
theorem backtest_deterministic_witness :
    BacktestingEngine.runBacktestCore {} flatCandles50 =
      BacktestingEngine.runBacktestCore {} flatCandles50 :=
  backtest_deterministic {} {} flatCandles50 flatCandles50 rfl rfl

/-- C6 counterexample: the backtesting engine's position-sizing helper — one of the two
functions the claim cites — performs no input validation at all: called with the
negative balance −1000 it returns the numeric size −24 (risk −3 times leverage 8)
instead of a null validation failure. -/
theorem engine_sizing_no_validation :
    BacktestingEngine.calculatePositionSize (-1000)
      { type := SignalType.bullish, strength := 1/2, confidence := 7/10,
        source := "hammer" } 50 = -24 := by
  simp only [BacktestingEngine.calculatePositionSize]
  norm_num

/-- C6 (amended): `PositionCalculator.calculatePositionSize` returns null on every
non-positive balance or entry price and on a zero stop loss (NaN inputs hit the same
falsy check in JS); the backtest engine's internal sizing helper has no such validation
and returns a numeric size even for negative balances. -/
theorem positionCalculator_rejects_invalid (cfg : PositionCalculator.Config)
    (b e sl rp : ℚ) (h : b ≤ 0 ∨ e ≤ 0 ∨ sl = 0) :
    PositionCalculator.calculatePositionSize cfg b e sl rp = none := by
  have hc : b = 0 ∨ e = 0 ∨ sl = 0 ∨ b ≤ 0 ∨ e ≤ 0 := by
    rcases h with h | h | h
    · exact Or.inr (Or.inr (Or.inr (Or.inl h)))
    · exact Or.inr (Or.inr (Or.inr (Or.inr h)))
    · exact Or.inr (Or.inr (Or.inl h))
  unfold PositionCalculator.calculatePositionSize
  rw [if_pos hc]

/-- Witness for C6: the calculator rejects a −1000 balance. -/
theorem positionCalculator_rejects_invalid_witness :
    PositionCalculator.calculatePositionSize {} (-1000) 100 95 (2/100) = none :=
  positionCalculator_rejects_invalid {} (-1000) 100 95 (2/100) (Or.inl (by norm_num))

/-- C4 counterexample: with 10 closes and period 14 — the spec's own insufficient-data
scenario — the backtesting engine's RSI function (cited by the claim) returns a
length-10 array filled with the neutral value 50: values, not an empty sequence. -/
theorem engine_rsi_insufficient_not_empty :
    BacktestingEngine.calculateRSI (List.replicate 10 100) 14 = List.replicate 10 50 ∧
    BacktestingEngine.calculateRSI (List.replicate 10 100) 14 ≠ [] := by
  decide

/-- C4 (amended): the indicator library's `calculateRSI` returns the empty sequence
whenever fewer than `period+1` valid positive closes are supplied (without throwing),
while the backtesting engine's internal `calculateRSI` instead returns an input-length
array filled with 50 whenever the raw input is shorter than `period+1`, and applies no
validity filtering. -/
theorem rsi_insufficient_data (prices : List ℚ) (period : ℕ)
    (hvalid : (prices.filter (fun p => decide (0 < p))).length < period + 1) :
    TechnicalIndicators.calculateRSI prices period = [] ∧
    (prices.length < period + 1 →
      BacktestingEngine.calculateRSI prices period = List.replicate prices.length 50) := by
  constructor
  · by_cases h1 : prices.length < period + 1
    · simp [TechnicalIndicators.calculateRSI, h1]
    · simp [TechnicalIndicators.calculateRSI, h1, hvalid]
  · intro hlen
    simp [BacktestingEngine.calculateRSI, hlen]

/-- Witness for C4: 10 closes, period 14. -/
theorem rsi_insufficient_data_witness :
    TechnicalIndicators.calculateRSI (List.replicate 10 100) 14 = [] ∧
    ((List.replicate 10 (100 : ℚ)).length < 15 →
      BacktestingEngine.calculateRSI (List.replicate 10 100) 14 = List.replicate 10 50) :=
  rsi_insufficient_data (List.replicate 10 100) 14 (by decide)

/-- C5 (code bug): the RSI invariant `RSI ∈ [0,100]` fails in the engine's
implementation because the first Wilder value (source line 456) is pushed without the
`avgLoss === 0` guard that protects every later value: on 15 equal closes all price
changes are zero, so `avgGain/avgLoss = 0/0 = NaN` and the value at index 14 is NaN —
outside [0,100].  The guard on the very next lines (457-460) shows the intent. -/
theorem engine_rsi_nan_bug :
    (BacktestingEngine.calculateRSIjs (List.replicate 15 (JSNum.num 100)) 14).get? 14 =
      some JSNum.nan ∧ JSNum.inRSIRange JSNum.nan = false := by
  constructor
  · norm_num [BacktestingEngine.calculateRSIjs, sumJ, JSNum.sub, JSNum.add, JSNum.neg,
      JSNum.div, JSNum.mul, JSNum.maxJ, JSNum.isZero, List.replicate]
  · rfl

/-- C1 counterexample: the trailing stop is recomputed per candle with no persisted
state.  With stop distance 1.5% and target distance 1.6% of entry: on an earlier candle
with unrealized profit 1.2% (above 60% of the target) the trailing stop activates and
the threshold tightens to −0.24% while the position stays open; on a later candle with
profit fallen to 0.1% the position is still open but the threshold has loosened back to
the full −1.5% base stop — strictly looser than before. -/
theorem trailing_stop_loosens :
    BacktestingEngine.exitReasonFor (15/1000) (16/1000) (12/1000) false = none ∧
    BacktestingEngine.exitReasonFor (15/1000) (16/1000) (1/1000) false = none ∧
    (16 : ℚ)/1000 * (6/10) < 12/1000 ∧
    BacktestingEngine.trailingStopPerc (15/1000) (16/1000) (1/1000) <
      BacktestingEngine.trailingStopPerc (15/1000) (16/1000) (12/1000) := by
  norm_num [BacktestingEngine.exitReasonFor, BacktestingEngine.trailingStopPerc]

/-- C1 (amended): on any single candle the trailing rule never loosens the stop below
the base fixed stop — the effective threshold is at least `-stopPerc`, and on a candle
whose unrealized profit has not exceeded 60% of the target distance it is exactly
`-stopPerc`.  Since the threshold is recomputed each candle from the current ATR and
P&L, with no trailing state carried across candles, it can loosen between candles
(`trailing_stop_loosens`). -/
theorem trailing_stop_per_candle (stopPerc targetPerc pnlPerc : ℚ) :
    -stopPerc ≤ BacktestingEngine.trailingStopPerc stopPerc targetPerc pnlPerc ∧
    (pnlPerc ≤ targetPerc * (6/10) →
      BacktestingEngine.trailingStopPerc stopPerc targetPerc pnlPerc = -stopPerc) := by
  unfold BacktestingEngine.trailingStopPerc
  constructor
  · split_ifs with h
    · exact le_max_left _ _
    · exact le_refl _
  · intro hle
    rw [if_neg (not_lt.mpr hle)]

/-- Helper: the combiner's find-a-strong-signal test together with the two-agreeing
test matches the spec's qualification predicate. -/
theorem find_strong_iff (l : List Signal) :
    ((l.find? (fun x => decide ((4 : ℚ)/10 < x.strength))).isSome ∨ 2 ≤ l.length) ↔
      BacktestingEngine.directionQualifies l := by
  unfold BacktestingEngine.directionQualifies
  constructor
  · rintro (h | h)
    · left
      obtain ⟨x, hx, hpx⟩ := List.find?_isSome.mp h
      exact ⟨x, hx, by simpa using hpx⟩
    · exact Or.inr h
  · rintro (⟨x, hx, hs⟩ | h)
    · exact Or.inl (List.find?_isSome.mpr ⟨x, hx, by simpa using hs⟩)
    · exact Or.inr h

/-- Helper: a qualifying candidate list is nonempty. -/
theorem directionQualifies_ne_nil {l : List Signal}
    (h : BacktestingEngine.directionQualifies l) : l ≠ [] := by
  rcases h with ⟨x, hx, _⟩ | h
  · exact List.ne_nil_of_mem hx
  · intro hnil
    rw [hnil] at h
    simp at h

/-- Helper: when the bullish side qualifies, the combiner returns the bullish combined
signal (whatever the bearish side holds). -/
theorem combine_bullish_of_qualifies (sigs : List (Option Signal))
    (hq : BacktestingEngine.directionQualifies
      ((sigs.filterMap id).filter (fun x => x.type == SignalType.bullish))) :
    BacktestingEngine.combineSignalsSimplified sigs =
      some (BacktestingEngine.combinedOf SignalType.bullish
        ((sigs.filterMap id).filter (fun x => x.type == SignalType.bullish))) := by
  have hne := directionQualifies_ne_nil hq
  have hslen : ¬ (sigs.filterMap id).length = 0 := by
    intro h0
    apply hne
    rw [List.length_eq_zero.mp h0]
    rfl
  have h1 : 1 ≤ ((sigs.filterMap id).filter
      (fun x => x.type == SignalType.bullish)).length := List.length_pos.mpr hne
  have hcond := (find_strong_iff _).mpr hq
  simp only [BacktestingEngine.combineSignalsSimplified, hslen, if_false]
  rw [if_pos h1, if_pos hcond]
  rfl

/-- Helper: when the bullish side does not qualify but the bearish side does, the
combiner falls through and returns the bearish combined signal. -/
theorem combine_bearish_of_qualifies (sigs : List (Option Signal))
    (hnb : ¬ BacktestingEngine.directionQualifies
      ((sigs.filterMap id).filter (fun x => x.type == SignalType.bullish)))
    (hq : BacktestingEngine.directionQualifies
      ((sigs.filterMap id).filter (fun x => x.type == SignalType.bearish))) :
    BacktestingEngine.combineSignalsSimplified sigs =
      some (BacktestingEngine.combinedOf SignalType.bearish
        ((sigs.filterMap id).filter (fun x => x.type == SignalType.bearish))) := by
  have hne := directionQualifies_ne_nil hq
  have hslen : ¬ (sigs.filterMap id).length = 0 := by
    intro h0
    apply hne
    rw [List.length_eq_zero.mp h0]
    rfl
  have hr1 : 1 ≤ ((sigs.filterMap id).filter
      (fun x => x.type == SignalType.bearish)).length := List.length_pos.mpr hne
  have hrcond := (find_strong_iff _).mpr hq
  have hbcond : ¬ ((((sigs.filterMap id).filter
      (fun x => x.type == SignalType.bullish)).find?
        (fun x => decide ((4 : ℚ)/10 < x.strength))).isSome ∨
      2 ≤ ((sigs.filterMap id).filter
        (fun x => x.type == SignalType.bullish)).length) :=
    fun h => hnb ((find_strong_iff _).mp h)
  simp only [BacktestingEngine.combineSignalsSimplified, hslen, if_false]
  by_cases hb1 : 1 ≤ ((sigs.filterMap id).filter
      (fun x => x.type == SignalType.bullish)).length
  · rw [if_pos hb1, if_neg hbcond, if_pos hr1, if_pos hrcond]
    rfl
  · rw [if_neg hb1, if_pos hr1, if_pos hrcond]
    rfl

/-- Helper: when neither side qualifies the combiner returns null. -/
theorem combine_none_of_no_qualify (sigs : List (Option Signal))
    (hnb : ¬ BacktestingEngine.directionQualifies
      ((sigs.filterMap id).filter (fun x => x.type == SignalType.bullish)))
    (hnr : ¬ BacktestingEngine.directionQualifies
      ((sigs.filterMap id).filter (fun x => x.type == SignalType.bearish))) :
    BacktestingEngine.combineSignalsSimplified sigs = none := by
  have hbcond : ¬ ((((sigs.filterMap id).filter
      (fun x => x.type == SignalType.bullish)).find?
        (fun x => decide ((4 : ℚ)/10 < x.strength))).isSome ∨
      2 ≤ ((sigs.filterMap id).filter
        (fun x => x.type == SignalType.bullish)).length) :=
    fun h => hnb ((find_strong_iff _).mp h)
  have hrcond : ¬ ((((sigs.filterMap id).filter
      (fun x => x.type == SignalType.bearish)).find?
        (fun x => decide ((4 : ℚ)/10 < x.strength))).isSome ∨
      2 ≤ ((sigs.filterMap id).filter
        (fun x => x.type == SignalType.bearish)).length) :=
    fun h => hnr ((find_strong_iff _).mp h)
  by_cases h0 : (sigs.filterMap id).length = 0
  · simp [BacktestingEngine.combineSignalsSimplified, h0]
  · simp only [BacktestingEngine.combineSignalsSimplified, h0, if_false]
    by_cases hb1 : 1 ≤ ((sigs.filterMap id).filter
        (fun x => x.type == SignalType.bullish)).length
    · rw [if_pos hb1, if_neg hbcond]
      by_cases hr1 : 1 ≤ ((sigs.filterMap id).filter
          (fun x => x.type == SignalType.bearish)).length
      · rw [if_pos hr1, if_neg hrcond]
      · rw [if_neg hr1]
    · rw [if_neg hb1]
      by_cases hr1 : 1 ≤ ((sigs.filterMap id).filter
          (fun x => x.type == SignalType.bearish)).length
      · rw [if_pos hr1, if_neg hrcond]
      · rw [if_neg hr1]

/-- Helper: dropping neutral candidates leaves the bullish partition unchanged. -/
theorem dropNeutral_bulls (sigs : List (Option Signal)) :
    ((BacktestingEngine.dropNeutral sigs).filterMap id).filter
        (fun x => x.type == SignalType.bullish) =
      ((sigs.filterMap id).filter (fun x => x.type == SignalType.bullish)) := by
  induction sigs with
  | nil => rfl
  | cons o rest ih =>
    cases o with
    | none => simpa [BacktestingEngine.dropNeutral] using ih
    | some x =>
      by_cases hx : x.type = SignalType.neutral
      · simp [BacktestingEngine.dropNeutral, hx, List.filter_cons] at *
        simpa [BacktestingEngine.dropNeutral] using ih
      · simp only [BacktestingEngine.dropNeutral, List.map_cons, Option.bind_eq_bind,
          Option.some_bind, if_neg hx, List.filterMap_cons, id_eq,
          List.filter_cons] at *
        rw [ih]

/-- Helper: dropping neutral candidates leaves the bearish partition unchanged. -/
theorem dropNeutral_bears (sigs : List (Option Signal)) :
    ((BacktestingEngine.dropNeutral sigs).filterMap id).filter
        (fun x => x.type == SignalType.bearish) =
      ((sigs.filterMap id).filter (fun x => x.type == SignalType.bearish)) := by
  induction sigs with
  | nil => rfl
  | cons o rest ih =>
    cases o with
    | none => simpa [BacktestingEngine.dropNeutral] using ih
    | some x =>
      by_cases hx : x.type = SignalType.neutral
      · simp [BacktestingEngine.dropNeutral, hx, List.filter_cons] at *
        simpa [BacktestingEngine.dropNeutral] using ih
      · simp only [BacktestingEngine.dropNeutral, List.map_cons, Option.bind_eq_bind,
          Option.some_bind, if_neg hx, List.filterMap_cons, id_eq,
          List.filter_cons] at *
        rw [ih]

/-- C7 (amended): when no trend-follow signal of strength above 0.3 exists, the final
signal is the plain combiner output, and the combiner behaves as the spec describes
with one refinement: the bullish side is examined first.  It returns the bullish
combined signal whenever the bullish side qualifies (one candidate above the strong
threshold 0.4 or two agreeing candidates); the bearish combined signal only when the
bullish side does not qualify and the bearish side does; and null when neither side
qualifies.  A combined signal's strength and confidence are the contributing means,
`confirmations` the contributor count, and `source` `"combined"` (all by definition of
`combinedOf`). -/
theorem combiner_characterized (trend wm volume candle div rsiX : Option Signal)
    (htrend : ∀ t, trend = some t → t.strength ≤ 3/10) :
    BacktestingEngine.selectFinalSignal trend [wm, volume, candle, div, rsiX] =
      BacktestingEngine.combineSignalsSimplified [wm, volume, candle, div, rsiX] ∧
    (BacktestingEngine.directionQualifies
        (([wm, volume, candle, div, rsiX].filterMap id).filter
          (fun x => x.type == SignalType.bullish)) →
      BacktestingEngine.combineSignalsSimplified [wm, volume, candle, div, rsiX] =
        some (BacktestingEngine.combinedOf SignalType.bullish
          (([wm, volume, candle, div, rsiX].filterMap id).filter
            (fun x => x.type == SignalType.bullish)))) ∧
    (¬ BacktestingEngine.directionQualifies
        (([wm, volume, candle, div, rsiX].filterMap id).filter
          (fun x => x.type == SignalType.bullish)) →
      BacktestingEngine.directionQualifies
        (([wm, volume, candle, div, rsiX].filterMap id).filter
          (fun x => x.type == SignalType.bearish)) →
      BacktestingEngine.combineSignalsSimplified [wm, volume, candle, div, rsiX] =
        some (BacktestingEngine.combinedOf SignalType.bearish
          (([wm, volume, candle, div, rsiX].filterMap id).filter
            (fun x => x.type == SignalType.bearish)))) ∧
    (¬ BacktestingEngine.directionQualifies
        (([wm, volume, candle, div, rsiX].filterMap id).filter
          (fun x => x.type == SignalType.bullish)) →
      ¬ BacktestingEngine.directionQualifies
        (([wm, volume, candle, div, rsiX].filterMap id).filter
          (fun x => x.type == SignalType.bearish)) →
      BacktestingEngine.combineSignalsSimplified [wm, volume, candle, div, rsiX] =
        none) := by
  refine ⟨?_, ?_, ?_, ?_⟩
  · cases trend with
    | none => rfl
    | some t =>
        have ht := htrend t rfl
        simp [BacktestingEngine.selectFinalSignal, not_lt.mpr ht]
  · exact combine_bullish_of_qualifies _
  · exact combine_bearish_of_qualifies _
  · exact combine_none_of_no_qualify _

/-- C7 counterexample: with one bullish and one bearish candidate of strength 0.5 each
(each qualifying as the lone strong signal of its direction) the combiner returns the
bullish combined signal — the bearish direction qualifies yet no bearish combined
signal is returned, refuting the claim's direction-wise "iff". -/
theorem combiner_iff_counterexample :
    BacktestingEngine.directionQualifies [bearCandidate] ∧
    BacktestingEngine.selectFinalSignal none
        [some bullCandidate, some bearCandidate, none, none, none] =
      some { type := SignalType.bullish, strength := 1/2, confidence := 7/10,
             source := "combined", confirmations := some 1 } := by
  constructor
  · left
    exact ⟨bearCandidate, by simp, by norm_num [bearCandidate]⟩
  · have h := combine_bullish_of_qualifies
      [some bullCandidate, some bearCandidate, none, none, none]
      (Or.inl ⟨bullCandidate, by simp [bullCandidate], by norm_num [bullCandidate]⟩)
    have hsel : BacktestingEngine.selectFinalSignal none
        [some bullCandidate, some bearCandidate, none, none, none] =
        BacktestingEngine.combineSignalsSimplified
          [some bullCandidate, some bearCandidate, none, none, none] := rfl
    have hbulls : (List.filterMap id
        [some bullCandidate, some bearCandidate, none, none, none]).filter
          (fun x => x.type == SignalType.bullish) = [bullCandidate] := by
      simp [bullCandidate, bearCandidate]
    rw [hsel, h, hbulls]
    congr 1
    norm_num [BacktestingEngine.combinedOf, BacktestingEngine.avgStrength,
      BacktestingEngine.avgConfidence, bullCandidate]

/-- Witness for C7: the characterization applied at the concrete candidate set (no
trend signal, one strong bullish candidate), with the bullish-qualification hypothesis
discharged explicitly. -/
theorem combiner_characterized_witness :
    BacktestingEngine.combineSignalsSimplified
        [some bullCandidate, some bearCandidate, none, none, none] =
      some (BacktestingEngine.combinedOf SignalType.bullish
        (([some bullCandidate, some bearCandidate, none, none,
            none].filterMap id).filter (fun x => x.type == SignalType.bullish))) :=
  (combiner_characterized none (some bullCandidate) (some bearCandidate) none none none
      (fun _ h => Option.noConfusion h)).2.1
    (Or.inl ⟨bullCandidate, by simp [bullCandidate], by norm_num [bullCandidate]⟩)

/-- C10: bullish candidates take priority in the combiner: whenever both sides qualify
(one strong candidate or two agreeing), the bullish combined signal is returned; a
bearish combined signal can only be returned when the bullish side does not qualify;
and neutral-typed candidates are never counted toward either direction (dropping them
never changes the output). -/
theorem combiner_bullish_priority :
    (∀ sigs : List (Option Signal),
        BacktestingEngine.directionQualifies
          ((sigs.filterMap id).filter (fun x => x.type == SignalType.bullish)) →
        BacktestingEngine.directionQualifies
          ((sigs.filterMap id).filter (fun x => x.type == SignalType.bearish)) →
        BacktestingEngine.combineSignalsSimplified sigs =
          some (BacktestingEngine.combinedOf SignalType.bullish
            ((sigs.filterMap id).filter (fun x => x.type == SignalType.bullish)))) ∧
    (∀ (sigs : List (Option Signal)) (out : Signal),
        BacktestingEngine.combineSignalsSimplified sigs = some out →
        out.type = SignalType.bearish →
        ¬ BacktestingEngine.directionQualifies
          ((sigs.filterMap id).filter (fun x => x.type == SignalType.bullish))) ∧
    (∀ sigs : List (Option Signal),
        BacktestingEngine.combineSignalsSimplified sigs =
          BacktestingEngine.combineSignalsSimplified
            (BacktestingEngine.dropNeutral sigs)) := by
  refine ⟨?_, ?_, ?_⟩
  · intro sigs hqb _
    exact combine_bullish_of_qualifies sigs hqb
  · intro sigs out hout hty hqb
    rw [combine_bullish_of_qualifies sigs hqb] at hout
    have : out = BacktestingEngine.combinedOf SignalType.bullish
        ((sigs.filterMap id).filter (fun x => x.type == SignalType.bullish)) :=
      Option.some.inj hout.symm
    rw [this] at hty
    exact SignalType.noConfusion hty
  · intro sigs
    by_cases hqb : BacktestingEngine.directionQualifies
        ((sigs.filterMap id).filter (fun x => x.type == SignalType.bullish))
    · rw [combine_bullish_of_qualifies sigs hqb,
        combine_bullish_of_qualifies (BacktestingEngine.dropNeutral sigs)
          (by rw [dropNeutral_bulls]; exact hqb), dropNeutral_bulls]
    · by_cases hqr : BacktestingEngine.directionQualifies
          ((sigs.filterMap id).filter (fun x => x.type == SignalType.bearish))
      · rw [combine_bearish_of_qualifies sigs hqb hqr,
          combine_bearish_of_qualifies (BacktestingEngine.dropNeutral sigs)
            (by rw [dropNeutral_bulls]; exact hqb)
            (by rw [dropNeutral_bears]; exact hqr), dropNeutral_bears]
      · rw [combine_none_of_no_qualify sigs hqb hqr,
          combine_none_of_no_qualify (BacktestingEngine.dropNeutral sigs)
            (by rw [dropNeutral_bulls]; exact hqb)
            (by rw [dropNeutral_bears]; exact hqr)]

/-- Witness for C10: with both directions qualifying at strength 0.5, the combiner
returns the bullish combined signal; and dropping neutrals leaves the concrete output
unchanged. -/
theorem combiner_bullish_priority_witness :
    BacktestingEngine.combineSignalsSimplified
        [some bullCandidate, some bearCandidate, none, none, none] =
      some (BacktestingEngine.combinedOf SignalType.bullish
        (([some bullCandidate, some bearCandidate, none, none,
            none].filterMap id).filter (fun x => x.type == SignalType.bullish))) ∧
    BacktestingEngine.combineSignalsSimplified
        [some bullCandidate, some bearCandidate, none, none, none] =
      BacktestingEngine.combineSignalsSimplified
        (BacktestingEngine.dropNeutral
          [some bullCandidate, some bearCandidate, none, none, none]) :=
  ⟨combiner_bullish_priority.1
      [some bullCandidate, some bearCandidate, none, none, none]
      (Or.inl ⟨bullCandidate, by simp [bullCandidate], by norm_num [bullCandidate]⟩)
      (Or.inl ⟨bearCandidate, by simp [bearCandidate], by norm_num [bearCandidate]⟩),
   combiner_bullish_priority.2.2
      [some bullCandidate, some bearCandidate, none, none, none]⟩

/-- C8: on co-directional consecutive same-kind extrema — price and indicator both
lower, or both higher — no divergence is reported: the backtest engine's bullish and
bearish divergence checks return null, and the live divergence engine's bullish and
bearish checks emit no signal. -/
theorem no_divergence_on_codirectional_extrema :
    (∀ (pp rp : BacktestingEngine.Pivots) (minStr : ℚ)
        (pl0 pl1 rl0 rl1 : BacktestingEngine.Pivot),
        last2 pp.lows = [pl0, pl1] → last2 rp.lows = [rl0, rl1] →
        ((pl1.value < pl0.value ∧ rl1.value < rl0.value) ∨
         (pl0.value < pl1.value ∧ rl0.value < rl1.value)) →
        BacktestingEngine.checkBullishDivergence pp rp minStr = none) ∧
    (∀ (pp rp : BacktestingEngine.Pivots) (minStr : ℚ)
        (ph0 ph1 rh0 rh1 : BacktestingEngine.Pivot),
        last2 pp.highs = [ph0, ph1] → last2 rp.highs = [rh0, rh1] →
        ((ph0.value < ph1.value ∧ rh0.value < rh1.value) ∨
         (ph1.value < ph0.value ∧ rh1.value < rh0.value)) →
        BacktestingEngine.checkBearishDivergence pp rp minStr = none) ∧
    (∀ (pair : String) (priceLows : List RSIDivergenceEngine.PricePoint)
        (rsiLows : List RSIDivergenceEngine.RSIPoint)
        (p1 p2 : RSIDivergenceEngine.PricePoint)
        (r1 r2 : RSIDivergenceEngine.RSIPoint),
        last2 priceLows = [p1, p2] →
        RSIDivergenceEngine.findCorrespondingRSI rsiLows p1.timestamp = some r1 →
        RSIDivergenceEngine.findCorrespondingRSI rsiLows p2.timestamp = some r2 →
        ((p2.price < p1.price ∧ r2.rsi < r1.rsi) ∨
         (p1.price < p2.price ∧ r1.rsi < r2.rsi)) →
        RSIDivergenceEngine.checkBullishDivergences pair priceLows rsiLows = []) ∧
    (∀ (pair : String) (priceHighs : List RSIDivergenceEngine.PricePoint)
        (rsiHighs : List RSIDivergenceEngine.RSIPoint)
        (p1 p2 : RSIDivergenceEngine.PricePoint)
        (r1 r2 : RSIDivergenceEngine.RSIPoint),
        last2 priceHighs = [p1, p2] →
        RSIDivergenceEngine.findCorrespondingRSI rsiHighs p1.timestamp = some r1 →
        RSIDivergenceEngine.findCorrespondingRSI rsiHighs p2.timestamp = some r2 →
        ((p1.price < p2.price ∧ r1.rsi < r2.rsi) ∨
         (p2.price < p1.price ∧ r2.rsi < r1.rsi)) →
        RSIDivergenceEngine.checkBearishDivergences pair priceHighs rsiHighs = []) := by
  refine ⟨?_, ?_, ?_, ?_⟩
  · intro pp rp minStr pl0 pl1 rl0 rl1 h1 h2 hco
    simp only [BacktestingEngine.checkBullishDivergence, h1, h2, List.length_cons,
      List.length_nil]
    norm_num
    rintro hp' hr'
    rcases hco with ⟨hp, hr⟩ | ⟨hp, hr⟩
    · exact absurd (hr.trans hr') (lt_irrefl _)
    · exact absurd (hp.trans hp') (lt_irrefl _)
  · intro pp rp minStr ph0 ph1 rh0 rh1 h1 h2 hco
    simp only [BacktestingEngine.checkBearishDivergence, h1, h2, List.length_cons,
      List.length_nil]
    norm_num
    rintro hp' hr'
    rcases hco with ⟨hp, hr⟩ | ⟨hp, hr⟩
    · exact absurd (hr.trans hr') (lt_irrefl _)
    · exact absurd (hp.trans hp') (lt_irrefl _)
  · intro pair priceLows rsiLows p1 p2 r1 r2 h1 hr1 hr2 hco
    by_cases hg : priceLows.length < 2 ∨ rsiLows.length < 2
    · simp [RSIDivergenceEngine.checkBullishDivergences, hg]
    · simp only [RSIDivergenceEngine.checkBullishDivergences, hg, if_false, h1, hr1, hr2]
      norm_num
      rintro hp' hr'
      rcases hco with ⟨hp, hr⟩ | ⟨hp, hr⟩
      · exact absurd (hr.trans hr') (lt_irrefl _)
      · exact absurd (hp.trans hp') (lt_irrefl _)
  · intro pair priceHighs rsiHighs p1 p2 r1 r2 h1 hr1 hr2 hco
    by_cases hg : priceHighs.length < 2 ∨ rsiHighs.length < 2
    · simp [RSIDivergenceEngine.checkBearishDivergences, hg]
    · simp only [RSIDivergenceEngine.checkBearishDivergences, hg, if_false, h1, hr1, hr2]
      norm_num
      rintro hp' hr'
      rcases hco with ⟨hp, hr⟩ | ⟨hp, hr⟩
      · exact absurd (hr.trans hr') (lt_irrefl _)
      · exact absurd (hp.trans hp') (lt_irrefl _)

/-- Witness for C8: a concrete pair of co-directional lows (price 100→90 with RSI
40→35, both falling) yields no divergence from either detector. -/
theorem no_divergence_on_codirectional_extrema_witness :
    BacktestingEngine.checkBullishDivergence
      { highs := [], lows := [⟨2, 100⟩, ⟨5, 90⟩] }
      { highs := [], lows := [⟨2, 40⟩, ⟨5, 35⟩] } (5/100) = none ∧
    RSIDivergenceEngine.checkBullishDivergences "BTC-USDT"
      [⟨2, 0, 100⟩, ⟨5, 1000000, 90⟩] [⟨2, 0, 40⟩, ⟨5, 1000000, 35⟩] = [] :=
  ⟨no_divergence_on_codirectional_extrema.1
      { highs := [], lows := [⟨2, 100⟩, ⟨5, 90⟩] }
      { highs := [], lows := [⟨2, 40⟩, ⟨5, 35⟩] } (5/100)
      ⟨2, 100⟩ ⟨5, 90⟩ ⟨2, 40⟩ ⟨5, 35⟩ (by simp [last2]) (by simp [last2])
      (Or.inl ⟨by norm_num, by norm_num⟩),
   no_divergence_on_codirectional_extrema.2.2.1 "BTC-USDT"
      [⟨2, 0, 100⟩, ⟨5, 1000000, 90⟩] [⟨2, 0, 40⟩, ⟨5, 1000000, 35⟩]
      ⟨2, 0, 100⟩ ⟨5, 1000000, 90⟩ ⟨2, 0, 40⟩ ⟨5, 1000000, 35⟩
      (by simp [last2])
      (by norm_num [RSIDivergenceEngine.findCorrespondingRSI, List.find?])
      (by norm_num [RSIDivergenceEngine.findCorrespondingRSI, List.find?])
      (Or.inl ⟨by norm_num, by norm_num⟩)⟩

/-- Witness for C1: the per-candle characterization at concrete stop and target
distances with profit below the activation level. -/
theorem trailing_stop_per_candle_witness :
    -(15/1000 : ℚ) ≤ BacktestingEngine.trailingStopPerc (15/1000) (16/1000) (1/1000) ∧
    BacktestingEngine.trailingStopPerc (15/1000) (16/1000) (1/1000) = -(15/1000) :=
  ⟨(trailing_stop_per_candle (15/1000) (16/1000) (1/1000)).1,
   (trailing_stop_per_candle (15/1000) (16/1000) (1/1000)).2 (by norm_num)⟩

/-- Helper for C3: the exit evaluation never touches the equity list. -/
theorem applyExit_equity (ctx : BacktestingEngine.BTContext) (i : ℕ) (candle : Candle)
    (s : BacktestingEngine.LoopState) :
    (BacktestingEngine.applyExit ctx i candle s).equity = s.equity := by
  obtain ⟨bal, tr, sg, eq, pos, ep, ps, lei⟩ := s
  cases pos with
  | none => rfl
  | some p =>
    dsimp only [BacktestingEngine.applyExit]
    split
    · rfl
    · rfl

/-- Helper for C3: every trade appended by the in-loop exit carries an `exitReason`,
so the count of reason-less trades is unchanged. -/
theorem applyExit_countNone (ctx : BacktestingEngine.BTContext) (i : ℕ) (candle : Candle)
    (s : BacktestingEngine.LoopState) :
    ((BacktestingEngine.applyExit ctx i candle s).trades.countP
        (fun t => t.exitReason.isNone)) =
      s.trades.countP (fun t => t.exitReason.isNone) := by
  obtain ⟨bal, tr, sg, eq, pos, ep, ps, lei⟩ := s
  cases pos with
  | none => rfl
  | some p =>
    dsimp only [BacktestingEngine.applyExit]
    split
    · simp [List.countP_append, List.countP_cons]
    · rfl

/-- Helper for C3: the entry evaluation never touches the equity list. -/
theorem applyEntry_equity (ctx : BacktestingEngine.BTContext) (i : ℕ) (candle : Candle)
    (finalSignal : Option Signal) (rsiI : Option ℚ) (s : BacktestingEngine.LoopState) :
    (BacktestingEngine.applyEntry ctx i candle finalSignal rsiI s).equity = s.equity := by
  obtain ⟨bal, tr, sg, eq, pos, ep, ps, lei⟩ := s
  cases pos with
  | some p => cases finalSignal <;> rfl
  | none =>
    cases finalSignal with
    | none => rfl
    | some fs =>
      dsimp only [BacktestingEngine.applyEntry]
      repeat' split
      all_goals rfl

/-- Helper for C3: the entry evaluation never touches the trade list. -/
theorem applyEntry_trades (ctx : BacktestingEngine.BTContext) (i : ℕ) (candle : Candle)
    (finalSignal : Option Signal) (rsiI : Option ℚ) (s : BacktestingEngine.LoopState) :
    (BacktestingEngine.applyEntry ctx i candle finalSignal rsiI s).trades = s.trades := by
  obtain ⟨bal, tr, sg, eq, pos, ep, ps, lei⟩ := s
  cases pos with
  | some p => cases finalSignal <;> rfl
  | none =>
    cases finalSignal with
    | none => rfl
    | some fs =>
      dsimp only [BacktestingEngine.applyEntry]
      repeat' split
      all_goals rfl

/-- Helper for C3: the equity push appends exactly one point. -/
theorem pushEquity_equity_length (candle : Candle) (s : BacktestingEngine.LoopState) :
    (BacktestingEngine.pushEquity candle s).equity.length = s.equity.length + 1 := by
  simp [BacktestingEngine.pushEquity]

/-- Helper for C3: the equity push never touches the trade list. -/
theorem pushEquity_trades (candle : Candle) (s : BacktestingEngine.LoopState) :
    (BacktestingEngine.pushEquity candle s).trades = s.trades := rfl

/-- Helper for C3: with the long-SMA filter disabled, the skip test is always false. -/
theorem trendFilterSkip_false {p : BacktestingEngine.Params} (h : p.useLongSMA = false)
    (o : Option ℚ) (pos : Option SignalType) (price : ℚ) :
    BacktestingEngine.trendFilterSkip p o pos price = false := by
  simp [BacktestingEngine.trendFilterSkip, h]

/-- Helper for C3: with the long-SMA filter disabled, each in-range loop iteration
appends exactly one equity point and no reason-less trade. -/
theorem loopStep_equity_trades (ctx : BacktestingEngine.BTContext)
    (s : BacktestingEngine.LoopState) (i : ℕ) (hsma : ctx.p.useLongSMA = false)
    (hi : i < ctx.data.length) :
    (BacktestingEngine.loopStep ctx s i).equity.length = s.equity.length + 1 ∧
    (BacktestingEngine.loopStep ctx s i).trades.countP (fun t => t.exitReason.isNone) =
      s.trades.countP (fun t => t.exitReason.isNone) := by
  cases hc : ctx.data.get? i with
  | none => exact absurd (List.get?_eq_none.mp hc) (Nat.not_le.mpr hi)
  | some candle =>
    unfold BacktestingEngine.loopStep
    rw [hc]
    simp only [trendFilterSkip_false hsma, Bool.false_eq_true, if_false]
    constructor
    · rw [pushEquity_equity_length, applyEntry_equity, applyExit_equity]
    · rw [pushEquity_trades, applyEntry_trades, applyExit_countNone]

/-- Helper for C3: folding the loop over any in-range index list adds one equity point
per index and no reason-less trade. -/
theorem runLoop_fold (ctx : BacktestingEngine.BTContext)
    (hsma : ctx.p.useLongSMA = false) :
    ∀ (idxs : List ℕ) (s : BacktestingEngine.LoopState),
      (∀ j ∈ idxs, j < ctx.data.length) →
      (idxs.foldl (BacktestingEngine.loopStep ctx) s).equity.length =
        s.equity.length + idxs.length ∧
      (idxs.foldl (BacktestingEngine.loopStep ctx) s).trades.countP
          (fun t => t.exitReason.isNone) =
        s.trades.countP (fun t => t.exitReason.isNone) := by
  intro idxs
  induction idxs with
  | nil => intro s _; simp
  | cons j rest ih =>
    intro s hall
    have hj : j < ctx.data.length := hall j (List.mem_cons_self j rest)
    have hrest : ∀ k ∈ rest, k < ctx.data.length := fun k hk =>
      hall k (List.mem_cons_of_mem j hk)
    have hstep := loopStep_equity_trades ctx s j hsma hj
    have hih := ih (BacktestingEngine.loopStep ctx s j) hrest
    constructor
    · rw [List.foldl_cons, hih.1, hstep.1, List.length_cons]
      omega
    · rw [List.foldl_cons, hih.2, hstep.2]

/-- Helper for C3: the final forced close appends one equity point and one
reason-less trade exactly when a position is still open, and nothing otherwise. -/
theorem finalizeRun_equity (p : BacktestingEngine.Params) (d : List Candle)
    (s : BacktestingEngine.LoopState) :
    (BacktestingEngine.finalizeRun p d s).equity.length +
        s.trades.countP (fun t => t.exitReason.isNone) =
      s.equity.length +
        (BacktestingEngine.finalizeRun p d s).trades.countP
          (fun t => t.exitReason.isNone) := by
  obtain ⟨bal, tr, sg, eq, pos, ep, ps, lei⟩ := s
  cases pos with
  | none => rfl
  | some p0 =>
    dsimp only [BacktestingEngine.finalizeRun]
    cases hl : d.getLast? with
    | none => rfl
    | some last =>
      simp [List.countP_append, List.countP_cons]
      omega

/-- C3 (amended): the equity array holds one initial point plus one point per
candle processed by the loop, plus one extra point exactly when a still-open position
is force-closed at run end (the forced-close trade is the unique trade without an
`exitReason`); with the long-SMA trend filter disabled no candle is skipped, so for a
run over `n` candles `len(equity) = 1 + (n - 50) + #(reason-less trades)`. -/
theorem equity_curve_length (p : BacktestingEngine.Params) (data : List Candle)
    (res : BacktestingEngine.BacktestResult) (hsma : p.useLongSMA = false)
    (hok : BacktestingEngine.runBacktestCore p data = Except.ok res) :
    res.equity.length =
      1 + (data.length - 50) + res.trades.countP (fun t => t.exitReason.isNone) := by
  unfold BacktestingEngine.runBacktestCore at hok
  by_cases hlen : data.length < 50
  · rw [if_pos hlen] at hok
    exact absurd hok (by simp)
  · rw [if_neg hlen] at hok
    simp only [Except.ok.injEq] at hok
    subst hok
    dsimp only
    have hctx_p : (BacktestingEngine.mkContext p data).p = p := rfl
    have hctx_d : (BacktestingEngine.mkContext p data).data = data := rfl
    have hfold := runLoop_fold (BacktestingEngine.mkContext p data)
      (by rw [hctx_p]; exact hsma)
      (List.range' 50 ((BacktestingEngine.mkContext p data).data.length - 50))
      (BacktestingEngine.initialState p data)
      (by
        intro j hj
        have := List.mem_range'_1.mp hj
        rw [hctx_d] at this ⊢
        omega)
    have hfin := finalizeRun_equity p data
      (BacktestingEngine.runLoop (BacktestingEngine.mkContext p data)
        (BacktestingEngine.initialState p data))
    have hloopeq : BacktestingEngine.runLoop (BacktestingEngine.mkContext p data)
        (BacktestingEngine.initialState p data) =
        (List.range' 50 ((BacktestingEngine.mkContext p data).data.length - 50)).foldl
          (BacktestingEngine.loopStep (BacktestingEngine.mkContext p data))
          (BacktestingEngine.initialState p data) := rfl
    rw [hloopeq] at hfin ⊢
    have hinit_eq : (BacktestingEngine.initialState p data).equity.length = 1 := rfl
    have hinit_tr : (BacktestingEngine.initialState p data).trades.countP
        (fun t => t.exitReason.isNone) = 0 := rfl
    have hrangelen : (List.range' 50
        ((BacktestingEngine.mkContext p data).data.length - 50)).length =
        data.length - 50 := by
      rw [hctx_d]
      simp [List.length_range']
    rw [hinit_eq, hinit_tr, hrangelen] at hfold
    omega

/-- Helper: the backtest core evaluated on the flat 50-candle series with default
parameters — the loop runs zero iterations, so the result is the single-point equity
curve with no trades and zero metrics. -/
theorem runBacktestCore_flat :
    BacktestingEngine.runBacktestCore {} flatCandles50 = Except.ok flatResult := by
  have hlen : flatCandles50.length = 50 := by simp [flatCandles50]
  have hloop : BacktestingEngine.runLoop (BacktestingEngine.mkContext {} flatCandles50)
      (BacktestingEngine.initialState {} flatCandles50) =
      BacktestingEngine.initialState {} flatCandles50 := by
    unfold BacktestingEngine.runLoop
    have hd : (BacktestingEngine.mkContext {} flatCandles50).data.length - 50 = 0 := by
      have : (BacktestingEngine.mkContext {} flatCandles50).data = flatCandles50 := rfl
      rw [this, hlen]
    rw [hd]
    rfl
  have hfin : BacktestingEngine.finalizeRun {} flatCandles50
      (BacktestingEngine.initialState {} flatCandles50) =
      BacktestingEngine.initialState {} flatCandles50 := rfl
  unfold BacktestingEngine.runBacktestCore
  rw [if_neg (by rw [hlen]; omega)]
  dsimp only
  rw [hloop, hfin]
  have hhead : flatCandles50.head? = some flatCandle := rfl
  have hlast : flatCandles50.getLast? = some flatCandle := rfl
  norm_num [flatResult, flatCandle, hhead, hlast, Option.elim,
    BacktestingEngine.initialState, jsOr, BacktestingEngine.calculateMaxDrawdown,
    Except.ok.injEq, BacktestingEngine.BacktestResult.mk.injEq,
    BacktestingEngine.Metrics.mk.injEq, EquityPoint.mk.injEq]

/-- C3 counterexample: a run over exactly 50 candles processes no candle in the loop
(indices 50 ≤ i < 50), yet the returned equity curve holds 1 point — the initial one —
so `len(equity)` is not the number of processed candles (0). -/
theorem equity_length_counterexample :
    (BacktestingEngine.runBacktestCore {} flatCandles50).toOption.map
        (fun r => r.equity.length) = some 1 ∧
    flatCandles50.length - 50 = 0 ∧ (1 : ℕ) ≠ 0 := by
  refine ⟨?_, by simp [flatCandles50], by omega⟩
  rw [runBacktestCore_flat]
  rfl

/-- Witness for C3: the amended cardinality applied to the flat 50-candle run — one
initial point, zero processed candles, zero forced closes. -/
theorem equity_curve_length_witness :
    flatResult.equity.length =
      1 + (flatCandles50.length - 50) +
        flatResult.trades.countP (fun t => t.exitReason.isNone) :=
  equity_curve_length {} flatCandles50 flatResult rfl runBacktestCore_flat

end TradingBot
